import Mathlib

/-!
Cisco 3725 platform (dynamips): NVRAM codec and Network Module bays.

Shallow embedding of `src/dev_c3725.c`, and of the command `set_iomem` of
`src/hv_c3745.c`.

Conventions of the embedding.

* A memory-mapped file is its size together with its byte contents, addressed by the
  offset from `base_ptr`.  Pointers into the mapping are offsets (`Nat`); pointer
  arithmetic is 64-bit (LP64) and is not reduced.  `m_uint32_t` and `m_uint16_t`
  arithmetic is reduced modulo `2^32` and `2^16` where the source computes in those types.
* `ssize_t` is 64 bits wide (LP64), so converting an `m_uint32_t` to it keeps the value.
* The constants of `dev_c3725.h` (`C3725_NVRAM_OFFSET`, `C3725_NVRAM_SIZE`,
  `C3725_MAX_NM_BAYS`), `nvram_cksum` and the drivers listed in `nm_drivers` are not part
  of the translated sources: they are parameters of the definitions that use them.
* `malloc` is an oracle telling whether an allocation of a given size succeeds.
-/

/-! ## Bytes in a mapped file -/

/-- A file mapped by `vm_mmap_open_file` / `vm_mmap_create_file`: `size` bytes starting at
`base_ptr`; `mem a` is the byte at `base_ptr + a`. -/
structure MappedFile where
  size : Nat
  mem : Nat → Nat

/-- Read of `ntohs(*PTR_ADJUST(m_uint16_t *,p,0))`: the big-endian 16-bit value at `p`. -/
def ntohs_at (mem : Nat → Nat) (p : Nat) : Nat :=
  (mem p % 256) * 256 + mem (p + 1) % 256

/-- Read of `ntohl(*PTR_ADJUST(m_uint32_t *,p,0))`: the big-endian 32-bit value at `p`. -/
def ntohl_at (mem : Nat → Nat) (p : Nat) : Nat :=
  (mem p % 256) * 16777216 + (mem (p + 1) % 256) * 65536
    + (mem (p + 2) % 256) * 256 + mem (p + 3) % 256

/-- Store of one byte. -/
def store_u8 (mem : Nat → Nat) (p v : Nat) : Nat → Nat :=
  fun a => if a = p then v else mem a

/-- Write of `*PTR_ADJUST(m_uint16_t *,p,0) = htons(v)`; `v` is truncated to 16 bits. -/
def store_htons (mem : Nat → Nat) (p v : Nat) : Nat → Nat :=
  store_u8 (store_u8 mem p (v / 256 % 256)) (p + 1) (v % 256)

/-- Write of `*PTR_ADJUST(m_uint32_t *,p,0) = htonl(v)`; `v` is truncated to 32 bits. -/
def store_htonl (mem : Nat → Nat) (p v : Nat) : Nat → Nat :=
  store_u8 (store_u8 (store_u8 (store_u8 mem p (v / 16777216 % 256))
    (p + 1) (v / 65536 % 256)) (p + 2) (v / 256 % 256)) (p + 3) (v % 256)

/-- The mapped file after `memcpy(dst,src,len)` from a buffer `src` of `len` bytes. -/
def memcpy_to (mem : Nat → Nat) (dst : Nat) (src : List Nat) : Nat → Nat :=
  fun a => if dst ≤ a ∧ a < dst + src.length then src.getD (a - dst) 0 else mem a

/-- The `n` bytes that `memcpy(buf,src,n)` reads from the mapped file, in order. -/
def memcpy_from (mem : Nat → Nat) (src n : Nat) : List Nat :=
  (List.range n).map (fun i => mem (src + i))

/-! ## NVRAM codec -/

/-- What `c3725_nvram_extract_config` did to the `*buffer` of its caller.
`untouched`: never assigned (`malloc` not called).  `null`: `malloc` was called and
failed, `*buffer` is `NULL`.  `allocated cap written`: `*buffer` points to `cap` freshly
allocated bytes and `written` was stored into it starting at index 0.  When `written` is
longer than `cap`, or was read from beyond the mapped file, the C program has left defined
behaviour: the value then records the copy that was requested, not a state it reaches. -/
inductive ConfigBuffer where
  | untouched : ConfigBuffer
  | null : ConfigBuffer
  | allocated (cap : Nat) (written : List Nat) : ConfigBuffer
  deriving DecidableEq, Repr

/-- Result of `c3725_nvram_extract_config`: the returned `ssize_t` and the state of `*buffer`. -/
structure ExtractResult where
  ret : Int
  buffer : ConfigBuffer
  deriving DecidableEq, Repr

/-- Embedding of `c3725_nvram_extract_config` (dev_c3725.c:66).  `rom` is what
`vm_mmap_open_file(vm,"rom",...)` gives (`none` when it returns -1). -/
def c3725_nvram_extract_config (C3725_NVRAM_OFFSET : Nat) (malloc_ok : Nat → Bool)
    (rom : Option MappedFile) : ExtractResult :=
  match rom with
  | none => ⟨-1, .untouched⟩
  | some f =>
    let ios_ptr := C3725_NVRAM_OFFSET
    let end_ptr := f.size
    if ios_ptr + 0x30 ≥ end_ptr then ⟨-1, .untouched⟩
    else
      let magic1 := ntohs_at f.mem (ios_ptr + 0x06)
      let magic2 := ntohs_at f.mem (ios_ptr + 0x08)
      if magic1 ≠ 0xF0A5 ∨ magic2 ≠ 0xABCD then ⟨-1, .untouched⟩
      else
        let start := (ntohl_at f.mem (ios_ptr + 0x10) + 1) % 4294967296
        let nvlen := ntohl_at f.mem (ios_ptr + 0x18)
        let sz := (nvlen + 1) % 4294967296
        if malloc_ok sz = false then ⟨-1, .null⟩
        else
          let cfg_ptr := ios_ptr + start + 0x08
          if cfg_ptr + nvlen > end_ptr then ⟨-1, .allocated sz []⟩
          else
            let n := (nvlen + 4294967296 - 1) % 4294967296
            ⟨(n : Int), .allocated sz (memcpy_from f.mem cfg_ptr n ++ [0])⟩

/-- Embedding of `c3725_nvram_push_config_part` (dev_c3725.c:120): the mapped bytes after
the call (the function always returns 0).  `buffer` holds the `len` bytes of the text. -/
def c3725_nvram_push_config_part (C3725_NVRAM_SIZE : Nat)
    (nvram_cksum : (Nat → Nat) → Nat → Nat → Nat)
    (mem : Nat → Nat) (buffer : List Nat) (ios_ptr : Nat) : Nat → Nat :=
  let len := buffer.length
  let cfg_offset := 0x2c
  let cfg_ptr := ios_ptr + cfg_offset
  let m1 := store_htons mem (ios_ptr + 0x06) 0xF0A5
  let m2 := store_htons m1 (ios_ptr + 0x08) 0xABCD
  let m3 := store_htons m2 (ios_ptr + 0x0a) 0x0001
  let m4 := store_htons m3 (ios_ptr + 0x0c) 0x0000
  let m5 := store_htons m4 (ios_ptr + 0x0e) 0x0c04
  let m6 := memcpy_to m5 cfg_ptr buffer
  let tmp := cfg_offset - 0x08
  let m7 := store_htonl m6 (ios_ptr + 0x10) tmp
  let m8 := store_htonl m7 (ios_ptr + 0x14) (tmp + len)
  let m9 := store_htonl m8 (ios_ptr + 0x18) len
  let cklen := (C3725_NVRAM_SIZE + 4294967296 - 0x08) % 4294967296
  let cksum := nvram_cksum m9 (ios_ptr + 0x08) cklen
  store_htons m9 (ios_ptr + 0x0c) cksum

/-- Embedding of `c3725_nvram_push_config` (dev_c3725.c:156).  `rom` is the mapping that
`vm_mmap_create_file(vm,"rom",vm->rom_size*1048576,...)` gives (`none` when it returns -1);
the result is the return value and the file contents after `vm_mmap_close_file`. -/
def c3725_nvram_push_config (C3725_NVRAM_OFFSET C3725_NVRAM_SIZE : Nat)
    (nvram_cksum : (Nat → Nat) → Nat → Nat → Nat)
    (rom : Option MappedFile) (buffer : List Nat) : Int × Option MappedFile :=
  match rom with
  | none => (-1, none)
  | some f =>
    let ios_ptr := C3725_NVRAM_OFFSET
    let m1 := c3725_nvram_push_config_part C3725_NVRAM_SIZE nvram_cksum f.mem buffer ios_ptr
    let m2 := c3725_nvram_push_config_part C3725_NVRAM_SIZE nvram_cksum m1 buffer
      (ios_ptr + C3725_NVRAM_SIZE)
    (0, some ⟨f.size, m2⟩)

/-- The text "hostname R1\n" as bytes. -/
def hostname_R1 : List Nat := [104, 111, 115, 116, 110, 97, 109, 101, 32, 82, 49, 10]

/-- A 2 MB rom file filled with zero bytes. -/
def zero_rom : MappedFile := ⟨2 * 1048576, fun _ => 0⟩

/-- Auxiliary predicate: the copy at `ios_ptr` holds the header fields and the text that
`c3725_nvram_push_config_part` writes for `text`. -/
def copy_holds (mem : Nat → Nat) (ios_ptr : Nat) (text : List Nat) : Prop :=
  ntohs_at mem (ios_ptr + 0x06) = 0xF0A5
  ∧ ntohs_at mem (ios_ptr + 0x08) = 0xABCD
  ∧ ntohs_at mem (ios_ptr + 0x0a) = 0x0001
  ∧ ntohs_at mem (ios_ptr + 0x0e) = 0x0c04
  ∧ ntohl_at mem (ios_ptr + 0x10) = 0x24
  ∧ ntohl_at mem (ios_ptr + 0x14) = (0x24 + text.length) % 4294967296
  ∧ ntohl_at mem (ios_ptr + 0x18) = text.length % 4294967296
  ∧ ∀ i, i < text.length → mem (ios_ptr + 0x2c + i) = text.getD i 0

/-! ### Concrete rom files used as test inputs -/

/-- Constant checksum, standing for `nvram_cksum` in concrete runs (the checksum field at
+0x0c is not read by the decoder). -/
def cksum0 : (Nat → Nat) → Nat → Nat → Nat := fun _ _ _ => 0

/-- The zero-filled rom after one copy for "hostname R1\n" was written at 0xE0000. -/
def pushed_rom : MappedFile :=
  ⟨zero_rom.size, c3725_nvram_push_config_part 0xE000 cksum0 zero_rom.mem hostname_R1 0xE0000⟩

/-- A rom file of 0xE0040 bytes, zero except for the header at 0xE0000: valid magic numbers,
stored config start 0xFFFFFFFF and stored config length 2. -/
def wrap_rom : MappedFile :=
  ⟨0xE0040, store_htonl (store_htonl (store_htons (store_htons (fun _ => 0)
    (0xE0000 + 0x06) 0xF0A5) (0xE0000 + 0x08) 0xABCD) (0xE0000 + 0x10) 0xFFFFFFFF)
    (0xE0000 + 0x18) 2⟩

/-- A rom file of 0xE0040 bytes, zero except for the header at 0xE0000: valid magic numbers,
stored config start 0x24 and stored config length 0x100 (more than the file holds). -/
def short_rom : MappedFile :=
  ⟨0xE0040, store_htonl (store_htonl (store_htons (store_htons (fun _ => 0)
    (0xE0000 + 0x06) 0xF0A5) (0xE0000 + 0x08) 0xABCD) (0xE0000 + 0x10) 0x24)
    (0xE0000 + 0x18) 0x100⟩

/-- The zero-filled rom after `c3725_nvram_push_config` of the empty text (both copies). -/
def empty_pushed_rom : MappedFile :=
  ⟨zero_rom.size, c3725_nvram_push_config_part 0xE000 cksum0
    (c3725_nvram_push_config_part 0xE000 cksum0 zero_rom.mem [] 0xE0000) [] (0xE0000 + 0xE000)⟩

/-- Result of `c3725_nvram_check_empty_config`: the returned `int`, `vm->conf_reg` after the
call, and the register value shown by the message "NVRAM is empty, ..." when it is printed. -/
structure CheckEmptyResult where
  ret : Int
  conf_reg : Nat
  printed : Option Nat
  deriving DecidableEq, Repr

/-- The `while(len > 0)` loop of `c3725_nvram_check_empty_config`, with `fuel` bounding the
number of iterations: `some true` when the loop ends with `len = 0`, `some false` when a
word read by `physmem_copy_u32_from_vm` is not zero, `none` when the fuel runs out.  `addr`
is an `m_uint64_t` and `len` a `size_t`: both are reduced modulo 2^64. -/
def check_empty_loop (physmem_copy_u32_from_vm : Nat → Nat) : Nat → Nat → Nat → Option Bool
  | 0, _, len => if len = 0 then some true else none
  | fuel + 1, addr, len =>
    if len = 0 then some true
    else if physmem_copy_u32_from_vm addr ≠ 0 then some false
    else check_empty_loop physmem_copy_u32_from_vm fuel
      ((addr + 4) % 18446744073709551616)
      ((len + 18446744073709551616 - 4) % 18446744073709551616)

/-- Embedding of `c3725_nvram_check_empty_config` (dev_c3725.c:179).  `rom_dev` is the
`phys_addr` of the device found by `dev_get_by_name(vm,"rom")` (`none` when there is none),
`physmem_copy_u32_from_vm` the 32-bit read of the physical memory of the VM, `conf_reg` the
value of `vm->conf_reg` before the call. -/
def c3725_nvram_check_empty_config (C3725_NVRAM_OFFSET C3725_NVRAM_SIZE : Nat)
    (physmem_copy_u32_from_vm : Nat → Nat) (fuel : Nat) (rom_dev : Option Nat)
    (conf_reg : Nat) : Option CheckEmptyResult :=
  match rom_dev with
  | none => some ⟨-1, conf_reg, none⟩
  | some phys_addr =>
    match check_empty_loop physmem_copy_u32_from_vm fuel
        ((phys_addr + C3725_NVRAM_OFFSET) % 18446744073709551616)
        (C3725_NVRAM_SIZE % 18446744073709551616) with
    | none => none
    | some false => some ⟨0, conf_reg, none⟩
    | some true => some ⟨0, conf_reg ||| 0x0040, some (conf_reg ||| 0x0040)⟩

/-! ## Network Module bays -/

/-- Driver descriptor (`struct c3725_nm_driver`).  The drivers themselves are not part of the
translated sources, so the callbacks are oracles: each gives the status the driver returns.
`nm_init dev_name nm_bay` also gives the driver data that the driver records with
`c3725_nm_set_drvinfo` during the call (`none` when it records nothing). -/
structure c3725_nm_driver where
  dev_type : String
  nm_init : String → Nat → Int × Option Nat
  nm_shutdown : Nat → Int
  nm_set_nio : Nat → Nat → String → Int
  nm_unset_nio : Nat → Nat → Int

/-- NIO binding (`struct c3725_nio_binding`); the NIO descriptor `nio` is identified by its
name in the registry (`nb->nio->name`). -/
structure c3725_nio_binding where
  nio : String
  port_id : Nat
  deriving DecidableEq, Repr

/-- Bay (`struct c3725_nm_bay`): `none` stands for a `NULL` pointer, `nio_list` for the
doubly linked list starting at `bay->nio_list`, in list order. -/
structure c3725_nm_bay where
  dev_name : Option String
  dev_type : Option String
  nio_list : List c3725_nio_binding
  nm_driver : Option c3725_nm_driver
  drv_info : Option Nat

/-- Router (`c3725_t`), restricted to the array `nm_bay[C3725_MAX_NM_BAYS]`. -/
structure c3725_t where
  nm_bay : Nat → c3725_nm_bay

/-- Calls that leave the translated file: driver callbacks and NIO registry calls. -/
inductive Event where
  | nm_init (dev_type dev_name : String) (nm_bay : Nat) : Event
  | nm_shutdown (dev_type : String) (nm_bay : Nat) : Event
  | nm_set_nio (dev_type : String) (nm_bay port_id : Nat) (nio : String) : Event
  | nm_unset_nio (dev_type : String) (nm_bay port_id : Nat) : Event
  | netio_acquire (name : String) : Event
  | netio_release (name : String) : Event
  deriving DecidableEq, Repr

/-- Program state seen by the bay routines: the router, the NIO registry (reference count of
every existing NIO, by name, a C `int`) and the calls made so far, oldest first. -/
structure World where
  router : c3725_t
  netio : String → Option Int
  trace : List Event

/-- Modelled from the spec: `netio_acquire` of the Backend Registry (`registry.h`/`net_io.h`
are not among the sources): acquiring an existing name adds 1 to its reference count,
an unknown name is not found. -/
def netio_acquire (netio : String → Option Int) (name : String) :
    Option (String → Option Int) :=
  match netio name with
  | none => none
  | some c => some (fun n => if n = name then some (c + 1) else netio n)

/-- Modelled from the spec: `netio_release` of the Backend Registry: releasing a name
subtracts 1 from its reference count. -/
def netio_release (netio : String → Option Int) (name : String) : String → Option Int :=
  match netio name with
  | none => netio
  | some c => fun n => if n = name then some (c - 1) else netio n

/-- Assignment through the pointer `&router->nm_bay[nm_bay]`. -/
def set_bay (w : World) (nm_bay : Nat) (bay : c3725_nm_bay) : World :=
  { w with router := ⟨fun i => if i = nm_bay then bay else w.router.nm_bay i⟩ }

/-- Embedding of `c3725_nm_get_info` (dev_c3725.c:385). -/
def c3725_nm_get_info (C3725_MAX_NM_BAYS : Nat) (router : c3725_t) (nm_bay : Nat) :
    Option c3725_nm_bay :=
  if nm_bay ≥ C3725_MAX_NM_BAYS then none else some (router.nm_bay nm_bay)

/-- Embedding of `c3725_nm_get_driver` (dev_c3725.c:424): first entry of `nm_drivers` whose
`dev_type` compares equal (`strcmp`) to the requested one. -/
def c3725_nm_get_driver (nm_drivers : List c3725_nm_driver) (dev_type : String) :
    Option c3725_nm_driver :=
  nm_drivers.find? (fun d => decide (d.dev_type = dev_type))

/-- Embedding of `c3725_nm_add_binding` (dev_c3725.c:436). -/
def c3725_nm_add_binding (C3725_MAX_NM_BAYS : Nat) (nm_drivers : List c3725_nm_driver)
    (w : World) (dev_type : String) (nm_bay : Nat) : Int × World :=
  match c3725_nm_get_info C3725_MAX_NM_BAYS w.router nm_bay with
  | none => (-1, w)
  | some bay =>
    if bay.dev_type ≠ none then (-1, w)
    else
      match c3725_nm_get_driver nm_drivers dev_type with
      | none => (-1, w)
      | some nm_driver =>
        (0, set_bay w nm_bay
          { bay with dev_type := some nm_driver.dev_type, nm_driver := some nm_driver })

/-- Body of the loop of `c3725_nm_remove_all_nio_bindings` over the list from `nb` on:
the registry and the trace after it. -/
def remove_all_nio_loop (nm_driver : Option c3725_nm_driver) (nm_bay : Nat) :
    List c3725_nio_binding → (String → Option Int) → List Event →
    (String → Option Int) × List Event
  | [], netio, trace => (netio, trace)
  | nb :: next, netio, trace =>
    let trace1 := match nm_driver with
      | some d => trace ++ [Event.nm_unset_nio d.dev_type nm_bay nb.port_id]
      | none => trace
    remove_all_nio_loop nm_driver nm_bay next (netio_release netio nb.nio)
      (trace1 ++ [Event.netio_release nb.nio])

/-- Embedding of `c3725_nm_remove_all_nio_bindings` (dev_c3725.c:580). -/
def c3725_nm_remove_all_nio_bindings (C3725_MAX_NM_BAYS : Nat) (w : World) (nm_bay : Nat) :
    Int × World :=
  match c3725_nm_get_info C3725_MAX_NM_BAYS w.router nm_bay with
  | none => (-1, w)
  | some bay =>
    let r := remove_all_nio_loop bay.nm_driver nm_bay bay.nio_list w.netio w.trace
    (0, set_bay { w with netio := r.1, trace := r.2 } nm_bay { bay with nio_list := [] })

/-- Embedding of `c3725_nm_remove_binding` (dev_c3725.c:462). -/
def c3725_nm_remove_binding (C3725_MAX_NM_BAYS : Nat) (w : World) (nm_bay : Nat) :
    Int × World :=
  match c3725_nm_get_info C3725_MAX_NM_BAYS w.router nm_bay with
  | none => (-1, w)
  | some bay =>
    if bay.drv_info ≠ none then (-1, w)
    else if bay.dev_type = none then (-1, w)
    else
      let w1 := (c3725_nm_remove_all_nio_bindings C3725_MAX_NM_BAYS w nm_bay).2
      (0, set_bay w1 nm_bay { w1.router.nm_bay nm_bay with dev_type := none, nm_driver := none })

/-- Calls of `nm_set_nio` made by the loop of `c3725_nm_enable_all_nio`, in list order. -/
def enable_all_nio_loop (d : c3725_nm_driver) (nm_bay : Nat) (l : List c3725_nio_binding) :
    List Event :=
  l.map (fun nb => Event.nm_set_nio d.dev_type nm_bay nb.port_id nb.nio)

/-- Embedding of `c3725_nm_enable_all_nio` (dev_c3725.c:640). -/
def c3725_nm_enable_all_nio (C3725_MAX_NM_BAYS : Nat) (w : World) (nm_bay : Nat) :
    Int × World :=
  match c3725_nm_get_info C3725_MAX_NM_BAYS w.router nm_bay with
  | none => (-1, w)
  | some bay =>
    match bay.nm_driver, bay.drv_info with
    | some d, some _ =>
      (0, { w with trace := w.trace ++ enable_all_nio_loop d nm_bay bay.nio_list })
    | _, _ => (-1, w)

/-- The device name built by `snprintf(bay->dev_name,len,"%s(%u)",bay->dev_type,nm_bay)`. -/
def nm_dev_name (dev_type : String) (nm_bay len : Nat) : String :=
  (dev_type ++ "(" ++ toString nm_bay ++ ")").take (len - 1)

/-- Embedding of `c3725_nm_init` (dev_c3725.c:678).  `malloc_ok len` tells whether the
allocation of the device name succeeds. -/
def c3725_nm_init (C3725_MAX_NM_BAYS : Nat) (malloc_ok : Nat → Bool) (w : World)
    (nm_bay : Nat) : Int × World :=
  match c3725_nm_get_info C3725_MAX_NM_BAYS w.router nm_bay with
  | none => (-1, w)
  | some bay =>
    match bay.dev_type, bay.nm_driver with
    | some dev_type, some d =>
      let len := dev_type.utf8ByteSize + 10
      if malloc_ok len = false then (-1, set_bay w nm_bay { bay with dev_name := none })
      else
        let dev_name := nm_dev_name dev_type nm_bay len
        let r := d.nm_init dev_name nm_bay
        let bay1 := { bay with dev_name := some dev_name,
                               drv_info := match r.2 with
                                 | some data => some data
                                 | none => bay.drv_info }
        let w1 := set_bay { w with trace := w.trace ++ [Event.nm_init d.dev_type dev_name nm_bay] }
          nm_bay bay1
        if r.1 = 1 then (-1, w1)
        else (0, (c3725_nm_enable_all_nio C3725_MAX_NM_BAYS w1 nm_bay).2)
    | _, _ => (-1, w)

/-- Embedding of `c3725_nm_find_nio_binding` (dev_c3725.c:490): first binding of the bay, in
list order, whose `port_id` is the requested one. -/
def c3725_nm_find_nio_binding (C3725_MAX_NM_BAYS : Nat) (router : c3725_t)
    (nm_bay port_id : Nat) : Option c3725_nio_binding :=
  match c3725_nm_get_info C3725_MAX_NM_BAYS router nm_bay with
  | none => none
  | some bay => bay.nio_list.find? (fun nb => decide (nb.port_id = port_id))

/-- Embedding of `c3725_nm_add_nio_binding` (dev_c3725.c:507).  `nb_malloc_ok` tells whether
`malloc(sizeof(*nb))` succeeds.  The new binding is linked at the head of the list. -/
def c3725_nm_add_nio_binding (C3725_MAX_NM_BAYS : Nat) (nb_malloc_ok : Bool) (w : World)
    (nm_bay port_id : Nat) (nio_name : String) : Int × World :=
  match c3725_nm_get_info C3725_MAX_NM_BAYS w.router nm_bay with
  | none => (-1, w)
  | some bay =>
    if (c3725_nm_find_nio_binding C3725_MAX_NM_BAYS w.router nm_bay port_id).isSome then (-1, w)
    else
      let w1 := { w with trace := w.trace ++ [Event.netio_acquire nio_name] }
      match netio_acquire w.netio nio_name with
      | none => (-1, w1)
      | some netio1 =>
        if nb_malloc_ok = false then
          (-1, { w1 with netio := netio_release netio1 nio_name,
                         trace := w1.trace ++ [Event.netio_release nio_name] })
        else
          (0, set_bay { w1 with netio := netio1 } nm_bay
            { bay with nio_list := ⟨nio_name, port_id⟩ :: bay.nio_list })

/-- Embedding of `c3725_nm_remove_nio_binding` (dev_c3725.c:548).  The entry `nb` found by
`c3725_nm_find_nio_binding` is the first one with this `port_id`; unlinking it from the
doubly linked list leaves the other entries in their order. -/
def c3725_nm_remove_nio_binding (C3725_MAX_NM_BAYS : Nat) (w : World)
    (nm_bay port_id : Nat) : Int × World :=
  match c3725_nm_get_info C3725_MAX_NM_BAYS w.router nm_bay with
  | none => (-1, w)
  | some bay =>
    match c3725_nm_find_nio_binding C3725_MAX_NM_BAYS w.router nm_bay port_id with
    | none => (-1, w)
    | some nb =>
      let trace1 := match bay.nm_driver with
        | some d => w.trace ++ [Event.nm_unset_nio d.dev_type nm_bay port_id]
        | none => w.trace
      (0, set_bay { w with netio := netio_release w.netio nb.nio,
                           trace := trace1 ++ [Event.netio_release nb.nio] } nm_bay
        { bay with nio_list := bay.nio_list.eraseP (fun b => decide (b.port_id = port_id)) })

/-- Embedding of `c3725_nm_enable_nio` (dev_c3725.c:605). -/
def c3725_nm_enable_nio (C3725_MAX_NM_BAYS : Nat) (w : World) (nm_bay port_id : Nat) :
    Int × World :=
  match c3725_nm_get_info C3725_MAX_NM_BAYS w.router nm_bay with
  | none => (-1, w)
  | some bay =>
    match c3725_nm_find_nio_binding C3725_MAX_NM_BAYS w.router nm_bay port_id with
    | none => (-1, w)
    | some nb =>
      match bay.nm_driver, bay.drv_info with
      | some d, some _ =>
        (d.nm_set_nio nm_bay port_id nb.nio,
          { w with trace := w.trace ++ [Event.nm_set_nio d.dev_type nm_bay port_id nb.nio] })
      | _, _ => (-1, w)

/-- Embedding of `c3725_nm_disable_all_nio` (dev_c3725.c:659). -/
def c3725_nm_disable_all_nio (C3725_MAX_NM_BAYS : Nat) (w : World) (nm_bay : Nat) :
    Int × World :=
  match c3725_nm_get_info C3725_MAX_NM_BAYS w.router nm_bay with
  | none => (-1, w)
  | some bay =>
    match bay.nm_driver, bay.drv_info with
    | some d, some _ =>
      (0, { w with trace := w.trace
        ++ bay.nio_list.map (fun nb => Event.nm_unset_nio d.dev_type nm_bay nb.port_id) })
    | _, _ => (-1, w)

/-- Embedding of `c3725_nm_shutdown` (dev_c3725.c:713).  The `nm_shutdown` of the driver is
called only when `bay->drv_info` is set (`&&` evaluates its right operand only then). -/
def c3725_nm_shutdown (C3725_MAX_NM_BAYS : Nat) (w : World) (nm_bay : Nat) : Int × World :=
  match c3725_nm_get_info C3725_MAX_NM_BAYS w.router nm_bay with
  | none => (-1, w)
  | some bay =>
    match bay.dev_type, bay.nm_driver with
    | some _, some d =>
      let w1 := (c3725_nm_disable_all_nio C3725_MAX_NM_BAYS w nm_bay).2
      match bay.drv_info with
      | some _ =>
        let w2 := { w1 with trace := w1.trace ++ [Event.nm_shutdown d.dev_type nm_bay] }
        if d.nm_shutdown nm_bay = -1 then (-1, w2)
        else (0, set_bay w2 nm_bay { bay with dev_name := none, drv_info := none })
      | none => (0, set_bay w1 nm_bay { bay with dev_name := none, drv_info := none })
    | _, _ => (-1, w)

/-- States of the bay manager reachable from a freshly created instance
(`c3725_create_instance` clears the router with `memset`) by the seven bay operations, each
with any arguments and any outcome of the allocations; the registry is arbitrary. -/
inductive Reachable (C3725_MAX_NM_BAYS : Nat) (nm_drivers : List c3725_nm_driver) :
    World → Prop where
  | fresh (netio : String → Option Int) :
      Reachable C3725_MAX_NM_BAYS nm_drivers ⟨⟨fun _ => ⟨none, none, [], none, none⟩⟩, netio, []⟩
  | bind (w : World) (dev_type : String) (nm_bay : Nat) :
      Reachable C3725_MAX_NM_BAYS nm_drivers w →
      Reachable C3725_MAX_NM_BAYS nm_drivers
        (c3725_nm_add_binding C3725_MAX_NM_BAYS nm_drivers w dev_type nm_bay).2
  | unbind (w : World) (nm_bay : Nat) :
      Reachable C3725_MAX_NM_BAYS nm_drivers w →
      Reachable C3725_MAX_NM_BAYS nm_drivers
        (c3725_nm_remove_binding C3725_MAX_NM_BAYS w nm_bay).2
  | activate (w : World) (malloc_ok : Nat → Bool) (nm_bay : Nat) :
      Reachable C3725_MAX_NM_BAYS nm_drivers w →
      Reachable C3725_MAX_NM_BAYS nm_drivers
        (c3725_nm_init C3725_MAX_NM_BAYS malloc_ok w nm_bay).2
  | deactivate (w : World) (nm_bay : Nat) :
      Reachable C3725_MAX_NM_BAYS nm_drivers w →
      Reachable C3725_MAX_NM_BAYS nm_drivers
        (c3725_nm_shutdown C3725_MAX_NM_BAYS w nm_bay).2
  | attach_backend (w : World) (nb_malloc_ok : Bool) (nm_bay port_id : Nat)
      (nio_name : String) :
      Reachable C3725_MAX_NM_BAYS nm_drivers w →
      Reachable C3725_MAX_NM_BAYS nm_drivers
        (c3725_nm_add_nio_binding C3725_MAX_NM_BAYS nb_malloc_ok w nm_bay port_id nio_name).2
  | detach_backend (w : World) (nm_bay port_id : Nat) :
      Reachable C3725_MAX_NM_BAYS nm_drivers w →
      Reachable C3725_MAX_NM_BAYS nm_drivers
        (c3725_nm_remove_nio_binding C3725_MAX_NM_BAYS w nm_bay port_id).2
  | detach_all_backends (w : World) (nm_bay : Nat) :
      Reachable C3725_MAX_NM_BAYS nm_drivers w →
      Reachable C3725_MAX_NM_BAYS nm_drivers
        (c3725_nm_remove_all_nio_bindings C3725_MAX_NM_BAYS w nm_bay).2

/-- Repeated detach, the reference of the refinement: `c3725_nm_remove_nio_binding` called
once for each port of `ports`, in that order. -/
def detach_each_backend (C3725_MAX_NM_BAYS nm_bay : Nat) : World → List Nat → World
  | w, [] => w
  | w, port_id :: rest =>
    detach_each_backend C3725_MAX_NM_BAYS nm_bay
      (c3725_nm_remove_nio_binding C3725_MAX_NM_BAYS w nm_bay port_id).2 rest

/-- The words of the spec for `detach_all_backends(bay_index)`: "same as repeated
`detach_backend` for every bound port", the bound ports taken in list order. -/
def spec_detach_all_backends (C3725_MAX_NM_BAYS : Nat) (w : World) (nm_bay : Nat) : World :=
  detach_each_backend C3725_MAX_NM_BAYS nm_bay w
    ((w.router.nm_bay nm_bay).nio_list.map (fun nb => nb.port_id))

/-! ### Concrete routers used as test inputs -/

/-- A driver whose callbacks all report 0 and whose `nm_init` records driver data 1. -/
def test_driver (dev_type : String) : c3725_nm_driver :=
  ⟨dev_type, fun _ _ => (0, some 1), fun _ => 0, fun _ _ _ => 0, fun _ _ => 0⟩

/-- A bay as `memset(router,0,sizeof(*router))` leaves it. -/
def empty_bay : c3725_nm_bay := ⟨none, none, [], none, none⟩

/-- A freshly created router, with a registry that holds the NIO "tapA" (one reference). -/
def fresh_world : World :=
  ⟨⟨fun _ => empty_bay⟩, fun n => if n = "tapA" then some 1 else none, []⟩

/-- A driver table with two entries. -/
def test_drivers : List c3725_nm_driver := [test_driver "NM-1FE-TX", test_driver "GT96100-FE"]

/-- Bay 1 bound to "NM-1FE-TX" and not initialized, with port 0 bound to the NIO "tapA". -/
def bound_world : World :=
  ⟨⟨fun i => if i = 1 then
      ⟨none, some "NM-1FE-TX", [⟨"tapA", 0⟩], some (test_driver "NM-1FE-TX"), none⟩
    else empty_bay⟩, fun n => if n = "tapA" then some 2 else none, []⟩

/-- Bay 1 bound to "NM-1FE-TX" and already initialized (driver data set), with port 0 bound
to the NIO "tapA". -/
def active_world : World :=
  ⟨⟨fun i => if i = 1 then
      ⟨some "NM-1FE-TX(1)", some "NM-1FE-TX", [⟨"tapA", 0⟩], some (test_driver "NM-1FE-TX"),
        some 1⟩
    else empty_bay⟩, fun n => if n = "tapA" then some 2 else none, []⟩

/-- A driver whose `nm_init` reports the error status -1 and records no driver data. -/
def failing_init_driver (dev_type : String) : c3725_nm_driver :=
  ⟨dev_type, fun _ _ => (-1, none), fun _ => 0, fun _ _ _ => 0, fun _ _ => 0⟩

/-- A driver whose `nm_shutdown` and `nm_unset_nio` report the error status -1. -/
def failing_shutdown_driver (dev_type : String) : c3725_nm_driver :=
  ⟨dev_type, fun _ _ => (0, some 1), fun _ => -1, fun _ _ _ => 0, fun _ _ => -1⟩

/-- Bay 1 bound to a driver whose `nm_init` fails, not initialized, with port 0 bound to the
NIO "tapA". -/
def failing_init_world : World :=
  ⟨⟨fun i => if i = 1 then
      ⟨none, some "NM-1FE-TX", [⟨"tapA", 0⟩], some (failing_init_driver "NM-1FE-TX"), none⟩
    else empty_bay⟩, fun n => if n = "tapA" then some 2 else none, []⟩

/-- Bay 1 bound to a driver whose `nm_shutdown` fails, initialized, with port 0 bound to the
NIO "tapA". -/
def failing_shutdown_world : World :=
  ⟨⟨fun i => if i = 1 then
      ⟨some "NM-1FE-TX(1)", some "NM-1FE-TX", [⟨"tapA", 0⟩],
        some (failing_shutdown_driver "NM-1FE-TX"), some 1⟩
    else empty_bay⟩, fun n => if n = "tapA" then some 2 else none, []⟩

/-- Auxiliary: the state of `c3725_nm_init` right after the call of the `nm_init` of the
driver `d` on a bay of device type `dev_type`. -/
def after_driver_init (w : World) (nm_bay : Nat) (dev_type : String) (d : c3725_nm_driver) :
    World :=
  set_bay { w with trace := w.trace ++ [Event.nm_init d.dev_type
      (nm_dev_name dev_type nm_bay (dev_type.utf8ByteSize + 10)) nm_bay] } nm_bay
    { w.router.nm_bay nm_bay with
      dev_name := some (nm_dev_name dev_type nm_bay (dev_type.utf8ByteSize + 10)),
      drv_info := match (d.nm_init
          (nm_dev_name dev_type nm_bay (dev_type.utf8ByteSize + 10)) nm_bay).2 with
        | some data => some data
        | none => (w.router.nm_bay nm_bay).drv_info }

/-- Scenario of the reference discipline: on one bay, a sequence of attach/detach pairs, each
`c3725_nm_add_nio_binding` of a port followed by `c3725_nm_remove_nio_binding` of that port;
the result is the final state when every call of the sequence succeeded, `none` otherwise. -/
def attach_detach_pairs (C3725_MAX_NM_BAYS : Nat) (nb_malloc_ok : Bool) (nm_bay : Nat) :
    World → List (Nat × String) → Option World
  | w, [] => some w
  | w, (port_id, nio_name) :: rest =>
    if (c3725_nm_add_nio_binding C3725_MAX_NM_BAYS nb_malloc_ok w nm_bay port_id nio_name).1 = 0
        ∧ (c3725_nm_remove_nio_binding C3725_MAX_NM_BAYS
            (c3725_nm_add_nio_binding C3725_MAX_NM_BAYS nb_malloc_ok w nm_bay port_id
              nio_name).2 nm_bay port_id).1 = 0 then
      attach_detach_pairs C3725_MAX_NM_BAYS nb_malloc_ok nm_bay
        (c3725_nm_remove_nio_binding C3725_MAX_NM_BAYS
          (c3725_nm_add_nio_binding C3725_MAX_NM_BAYS nb_malloc_ok w nm_bay port_id
            nio_name).2 nm_bay port_id).2 rest
    else none

/-- Bay 1 bound to "NM-1FE-TX" and initialized, with port 1 bound to the NIO "tapA" and
port 0 to the NIO "tapB". -/
def two_nio_world : World :=
  ⟨⟨fun i => if i = 1 then
      ⟨some "NM-1FE-TX(1)", some "NM-1FE-TX", [⟨"tapA", 1⟩, ⟨"tapB", 0⟩],
        some (test_driver "NM-1FE-TX"), some 1⟩
    else empty_bay⟩,
    fun n => if n = "tapA" then some 2 else if n = "tapB" then some 1 else none, []⟩

/-! ## Chassis EEPROM and MAC address -/

/-- Modelled from the spec: the identity EEPROM is a mutable byte sequence; reading the byte
at `offset` gives `none` when the offset lies outside it (cisco_eeprom.c is not part of the
sources at hand). -/
def cisco_eeprom_get_byte (eeprom : List Nat) (offset : Nat) : Option Nat :=
  eeprom[offset]?

/-- Modelled from the spec: writing a region stores the bytes of `data` at consecutive
offsets starting at `offset`; it stops with -1 at the first offset outside the EEPROM and
never changes the length of the EEPROM. -/
def cisco_eeprom_set_region : List Nat → Nat → List Nat → Int × List Nat
  | eeprom, _, [] => (0, eeprom)
  | eeprom, offset, b :: rest =>
    if offset < eeprom.length then cisco_eeprom_set_region (eeprom.set offset b) (offset + 1) rest
    else (-1, eeprom)

/-- Ethernet address: `eth_addr_byte` holds the 6 bytes of `n_eth_addr_t`. -/
structure n_eth_addr_t where
  eth_addr_byte : List Nat
  deriving DecidableEq, Repr

/-- Result of `c3725_burn_mac_addr`: the returned `int`, `router->mb_eeprom` after the call
and the version shown by `vm_error` when it is called. -/
structure BurnResult where
  ret : Int
  mb_eeprom : List Nat
  vm_error : Option Nat
  deriving DecidableEq, Repr

/-- Embedding of `c3725_burn_mac_addr` (dev_c3725.c:969).  `cisco_eeprom_v4_find_field`
gives the offset it stores on success (`none` when it does not return 0); `eeprom_ver0` is
what the local `eeprom_ver` holds when `cisco_eeprom_get_byte` reads nothing. -/
def c3725_burn_mac_addr (cisco_eeprom_v4_find_field : List Nat → Nat → Option Nat)
    (eeprom_ver0 : Nat) (mb_eeprom : List Nat) (addr : n_eth_addr_t) : BurnResult :=
  let eeprom_ver := (cisco_eeprom_get_byte mb_eeprom 0).getD eeprom_ver0
  if eeprom_ver = 0 then
    ⟨0, (cisco_eeprom_set_region mb_eeprom 2 (addr.eth_addr_byte.take 6)).2, none⟩
  else if eeprom_ver = 4 then
    match cisco_eeprom_v4_find_field mb_eeprom 0xC3 with
    | some offset =>
      ⟨0, (cisco_eeprom_set_region mb_eeprom offset (addr.eth_addr_byte.take 6)).2, none⟩
    | none => ⟨0, mb_eeprom, none⟩
  else ⟨-1, mb_eeprom, some eeprom_ver⟩

/-- A 16-byte EEPROM of format version 0. -/
def v0_eeprom : List Nat :=
  [0x00, 0x01, 0x58, 0x58, 0x58, 0x58, 0x58, 0x58, 0x09, 0x61, 0x40, 0x02, 0x59, 0xC0, 0x46, 0x03]

/-- A 16-byte EEPROM of format version 1, which `c3725_burn_mac_addr` does not handle. -/
def v1_eeprom : List Nat :=
  [0x01, 0x01, 0x58, 0x58, 0x58, 0x58, 0x58, 0x58, 0x09, 0x61, 0x40, 0x02, 0x59, 0xC0, 0x46, 0x03]

/-- The address c4:01:13:19:00:00. -/
def test_mac : n_eth_addr_t := ⟨[0xC4, 0x01, 0x13, 0x19, 0x00, 0x00]⟩

/-! ### Rom files with extreme stored lengths -/

/-- A rom file of 0xE0040 + 2^32 bytes, zero except for the header at 0xE0000: valid magic
numbers, stored config start 0x24 and stored config length 0xFFFFFFFF. -/
def max_len_rom : MappedFile :=
  ⟨0xE0040 + 4294967296, store_htonl (store_htonl (store_htons (store_htons (fun _ => 0)
    (0xE0000 + 0x06) 0xF0A5) (0xE0000 + 0x08) 0xABCD) (0xE0000 + 0x10) 0x24)
    (0xE0000 + 0x18) 0xFFFFFFFF⟩

/-! ## Hypervisor command `set_iomem` (hv_c3745.c) -/

/-- The `isspace` of the C library in the "C" locale: space, and the control characters
\t, \n, \v, \f and \r (codes 9 to 13). -/
def isspace (c : Char) : Bool :=
  c.toNat = 32 || (9 ≤ c.toNat && c.toNat ≤ 13)

/-- The `strtol` of the C library in base 10 with a 64-bit `long`, as far as `atoi` uses it:
leading white space, an optional sign, then decimal digits up to the first other character;
a value outside the range of `long` gives `LONG_MAX` or `LONG_MIN`. -/
def strtol (s : String) : Int :=
  let digits : List Char → Int := fun r =>
    (r.takeWhile Char.isDigit).foldl (fun a c => 10 * a + ((c.toNat - 48 : Nat) : Int)) 0
  let v : Int :=
    match s.toList.dropWhile isspace with
    | '-' :: r => - digits r
    | '+' :: r => digits r
    | r => digits r
  if v > 9223372036854775807 then 9223372036854775807
  else if v < -9223372036854775808 then -9223372036854775808
  else v

/-- The `atoi` of the C library, `(int) strtol(s, NULL, 10)`: the conversion to the 32-bit
`int` keeps the low 32 bits in two's complement. -/
def atoi (s : String) : Int :=
  (strtol s + 2147483648) % 4294967296 - 2147483648

/-- The part of `c3745_t` written by `cmd_set_iomem`: `nm_iomem_size` holds the `int` value
of the expression assigned to it (the type of the field is declared in dev_c3745.h). -/
structure c3745_t where
  nm_iomem_size : Int
  deriving DecidableEq, Repr

/-- Result of `cmd_set_iomem`: the returned `int`, the router found by name after the call
(`none` when there is none) and the reply sent on the connection. -/
structure SetIomemResult where
  ret : Int
  router : Option c3745_t
  reply : Option String
  deriving DecidableEq, Repr

/-- Embedding of `cmd_set_iomem` (hv_c3745.c:82).  `optarg` is the global of `getopt`
(`none` for a null pointer), `hypervisor_find_vm` the lookup of a C3745 instance by name.
The result is `none` when `atoi` is applied to a null pointer. -/
def cmd_set_iomem (hypervisor_find_vm : String → Option c3745_t) (optarg : Option String)
    (argv : List String) : Option SetIomemResult :=
  match hypervisor_find_vm (argv.getD 0 "") with
  | none => some ⟨-1, none, none⟩
  | some _ =>
    match optarg with
    | none => none
    | some s => some ⟨0, some ⟨Int.lor 0x8000 (atoi s)⟩, some "OK"⟩

/-- A hypervisor with the single C3745 instance "R1", its `nm_iomem_size` being 0. -/
def one_vm : String → Option c3745_t := fun name => if name = "R1" then some ⟨0⟩ else none

/-! ## Loads and stores -/

theorem store_u8_ne {mem : Nat → Nat} {p v a : Nat} (h : a ≠ p) :
    store_u8 mem p v a = mem a := by
  simp [store_u8, h]

theorem store_htons_ne {mem : Nat → Nat} {p v a : Nat} (h : a < p ∨ p + 2 ≤ a) :
    store_htons mem p v a = mem a := by
  unfold store_htons
  rw [store_u8_ne (by omega), store_u8_ne (by omega)]

theorem store_htonl_ne {mem : Nat → Nat} {p v a : Nat} (h : a < p ∨ p + 4 ≤ a) :
    store_htonl mem p v a = mem a := by
  unfold store_htonl
  rw [store_u8_ne (by omega), store_u8_ne (by omega), store_u8_ne (by omega),
    store_u8_ne (by omega)]

theorem memcpy_to_outside {mem : Nat → Nat} {dst a : Nat} {src : List Nat}
    (h : a < dst ∨ dst + src.length ≤ a) : memcpy_to mem dst src a = mem a := by
  unfold memcpy_to
  rw [if_neg (by omega)]

theorem memcpy_to_inside {mem : Nat → Nat} {dst i : Nat} {src : List Nat}
    (h : i < src.length) : memcpy_to mem dst src (dst + i) = src.getD i 0 := by
  unfold memcpy_to
  rw [if_pos (by omega)]
  congr 1
  omega

theorem ntohs_store_htons (mem : Nat → Nat) (p v : Nat) :
    ntohs_at (store_htons mem p v) p = v % 65536 := by
  simp [ntohs_at, store_htons, store_u8]
  omega

theorem ntohl_store_htonl (mem : Nat → Nat) (p v : Nat) :
    ntohl_at (store_htonl mem p v) p = v % 4294967296 := by
  simp [ntohl_at, store_htonl, store_u8]
  omega

theorem ntohs_at_congr {m1 m2 : Nat → Nat} {p : Nat}
    (h : ∀ a, p ≤ a → a < p + 2 → m1 a = m2 a) : ntohs_at m1 p = ntohs_at m2 p := by
  unfold ntohs_at
  rw [h p (by omega) (by omega), h (p + 1) (by omega) (by omega)]

theorem ntohl_at_congr {m1 m2 : Nat → Nat} {p : Nat}
    (h : ∀ a, p ≤ a → a < p + 4 → m1 a = m2 a) : ntohl_at m1 p = ntohl_at m2 p := by
  unfold ntohl_at
  rw [h p (by omega) (by omega), h (p + 1) (by omega) (by omega),
    h (p + 2) (by omega) (by omega), h (p + 3) (by omega) (by omega)]

theorem memcpy_from_congr {m1 m2 : Nat → Nat} {p n : Nat}
    (h : ∀ a, p ≤ a → a < p + n → m1 a = m2 a) : memcpy_from m1 p n = memcpy_from m2 p n := by
  unfold memcpy_from
  apply List.map_congr_left
  intro i hi
  rw [List.mem_range] at hi
  exact h (p + i) (by omega) (by omega)

theorem memcpy_from_length (mem : Nat → Nat) (p n : Nat) :
    (memcpy_from mem p n).length = n := by
  simp [memcpy_from]

/-! ## What one call of `c3725_nvram_push_config_part` writes -/

/-- Bytes outside the header `[ios_ptr+0x06, ios_ptr+0x1c)` and outside the text
`[ios_ptr+0x2c, ios_ptr+0x2c+len)` are not written. -/
theorem push_config_part_frame (S : Nat) (ck : (Nat → Nat) → Nat → Nat → Nat)
    (mem : Nat → Nat) (buffer : List Nat) (ios_ptr a : Nat)
    (h : a < ios_ptr + 0x06 ∨ (ios_ptr + 0x1c ≤ a ∧ a < ios_ptr + 0x2c)
      ∨ ios_ptr + 0x2c + buffer.length ≤ a) :
    c3725_nvram_push_config_part S ck mem buffer ios_ptr a = mem a := by
  unfold c3725_nvram_push_config_part
  rw [store_htons_ne (by omega), store_htonl_ne (by omega), store_htonl_ne (by omega),
    store_htonl_ne (by omega), memcpy_to_outside (by omega), store_htons_ne (by omega),
    store_htons_ne (by omega), store_htons_ne (by omega), store_htons_ne (by omega),
    store_htons_ne (by omega)]

/-- The text bytes are stored verbatim from `ios_ptr+0x2c` on. -/
theorem push_config_part_text (S : Nat) (ck : (Nat → Nat) → Nat → Nat → Nat)
    (mem : Nat → Nat) (buffer : List Nat) (ios_ptr i : Nat) (h : i < buffer.length) :
    c3725_nvram_push_config_part S ck mem buffer ios_ptr (ios_ptr + 0x2c + i)
      = buffer.getD i 0 := by
  unfold c3725_nvram_push_config_part
  rw [store_htons_ne (by omega), store_htonl_ne (by omega), store_htonl_ne (by omega),
    store_htonl_ne (by omega), memcpy_to_inside h]

/-- The header fields written by one call, read back as big-endian values. -/
theorem push_config_part_header (S : Nat) (ck : (Nat → Nat) → Nat → Nat → Nat)
    (mem : Nat → Nat) (buffer : List Nat) (ios_ptr : Nat) :
    ntohs_at (c3725_nvram_push_config_part S ck mem buffer ios_ptr) (ios_ptr + 0x06) = 0xF0A5
    ∧ ntohs_at (c3725_nvram_push_config_part S ck mem buffer ios_ptr) (ios_ptr + 0x08) = 0xABCD
    ∧ ntohs_at (c3725_nvram_push_config_part S ck mem buffer ios_ptr) (ios_ptr + 0x0a) = 0x0001
    ∧ ntohs_at (c3725_nvram_push_config_part S ck mem buffer ios_ptr) (ios_ptr + 0x0e) = 0x0c04
    ∧ ntohl_at (c3725_nvram_push_config_part S ck mem buffer ios_ptr) (ios_ptr + 0x10) = 0x24
    ∧ ntohl_at (c3725_nvram_push_config_part S ck mem buffer ios_ptr) (ios_ptr + 0x14)
        = (0x24 + buffer.length) % 4294967296
    ∧ ntohl_at (c3725_nvram_push_config_part S ck mem buffer ios_ptr) (ios_ptr + 0x18)
        = buffer.length % 4294967296 := by
  refine ⟨?_, ?_, ?_, ?_, ?_, ?_, ?_⟩
  · simp [c3725_nvram_push_config_part, ntohs_at, store_htons, store_htonl, store_u8,
      memcpy_to, Nat.add_assoc]
  · simp [c3725_nvram_push_config_part, ntohs_at, store_htons, store_htonl, store_u8,
      memcpy_to, Nat.add_assoc]
  · simp [c3725_nvram_push_config_part, ntohs_at, store_htons, store_htonl, store_u8,
      memcpy_to, Nat.add_assoc]
  · simp [c3725_nvram_push_config_part, ntohs_at, store_htons, store_htonl, store_u8,
      memcpy_to, Nat.add_assoc]
  · simp [c3725_nvram_push_config_part, ntohl_at, store_htons, store_htonl, store_u8,
      memcpy_to, Nat.add_assoc]
  · simp [c3725_nvram_push_config_part, ntohl_at, store_htons, store_htonl, store_u8,
      memcpy_to, Nat.add_assoc]
    omega
  · simp [c3725_nvram_push_config_part, ntohl_at, store_htons, store_htonl, store_u8,
      memcpy_to, Nat.add_assoc]
    omega

/-- Reading back a stretch of memory that holds the tail of a list from index `k` on. -/
theorem memcpy_from_eq_drop (mem : Nat → Nat) (p : Nat) (l : List Nat) (k : Nat)
    (h : ∀ i, k + i < l.length → mem (p + i) = l.getD (k + i) 0) :
    memcpy_from mem p (l.length - k) = l.drop k := by
  apply List.ext_getElem
  · simp [memcpy_from]
  · intro i h1 h2
    have hk : k + i < l.length := by
      simp [memcpy_from] at h1
      omega
    simp [memcpy_from, h i hk, List.getElem?_eq_getElem hk]

/-- C3 (encode layout). After `c3725_nvram_push_config_part` on a text of `L` bytes, for any
copy base `ios_ptr` and any previous contents, the copy holds big-endian u16 0xF0A5 at
+0x06, u16 0xABCD at +0x08, u16 0x0001 at +0x0A, u16 0x0C04 at +0x0E, u32 0x24 at +0x10,
the u32 value of 0x24 + L at +0x14, the u32 value of L at +0x18 (a 32-bit field holds its
value modulo 2^32, as `htonl` stores it: exactly 0x24 + L and L whenever 0x24 + L < 2^32),
and the L text bytes verbatim from +0x2C on. -/
theorem c3725_nvram_push_config_part_layout (C3725_NVRAM_SIZE : Nat)
    (nvram_cksum : (Nat → Nat) → Nat → Nat → Nat) (mem : Nat → Nat) (buffer : List Nat)
    (ios_ptr : Nat) :
    ntohs_at (c3725_nvram_push_config_part C3725_NVRAM_SIZE nvram_cksum mem buffer ios_ptr)
        (ios_ptr + 0x06) = 0xF0A5
    ∧ ntohs_at (c3725_nvram_push_config_part C3725_NVRAM_SIZE nvram_cksum mem buffer ios_ptr)
        (ios_ptr + 0x08) = 0xABCD
    ∧ ntohs_at (c3725_nvram_push_config_part C3725_NVRAM_SIZE nvram_cksum mem buffer ios_ptr)
        (ios_ptr + 0x0A) = 0x0001
    ∧ ntohs_at (c3725_nvram_push_config_part C3725_NVRAM_SIZE nvram_cksum mem buffer ios_ptr)
        (ios_ptr + 0x0E) = 0x0C04
    ∧ ntohl_at (c3725_nvram_push_config_part C3725_NVRAM_SIZE nvram_cksum mem buffer ios_ptr)
        (ios_ptr + 0x10) = 0x24
    ∧ ntohl_at (c3725_nvram_push_config_part C3725_NVRAM_SIZE nvram_cksum mem buffer ios_ptr)
        (ios_ptr + 0x14) = (0x24 + buffer.length) % 2 ^ 32
    ∧ ntohl_at (c3725_nvram_push_config_part C3725_NVRAM_SIZE nvram_cksum mem buffer ios_ptr)
        (ios_ptr + 0x18) = buffer.length % 2 ^ 32
    ∧ (0x24 + buffer.length < 2 ^ 32 →
        ntohl_at (c3725_nvram_push_config_part C3725_NVRAM_SIZE nvram_cksum mem buffer ios_ptr)
          (ios_ptr + 0x14) = 0x24 + buffer.length
        ∧ ntohl_at (c3725_nvram_push_config_part C3725_NVRAM_SIZE nvram_cksum mem buffer ios_ptr)
          (ios_ptr + 0x18) = buffer.length)
    ∧ memcpy_from (c3725_nvram_push_config_part C3725_NVRAM_SIZE nvram_cksum mem buffer ios_ptr)
        (ios_ptr + 0x2C) buffer.length = buffer := by
  obtain ⟨h1, h2, h3, h4, h5, h6, h7⟩ :=
    push_config_part_header C3725_NVRAM_SIZE nvram_cksum mem buffer ios_ptr
  refine ⟨h1, h2, h3, h4, h5, h6, h7, ?_, ?_⟩
  · intro hlt
    rw [h6, h7]
    exact ⟨Nat.mod_eq_of_lt hlt, Nat.mod_eq_of_lt (by omega)⟩
  have h := memcpy_from_eq_drop
    (c3725_nvram_push_config_part C3725_NVRAM_SIZE nvram_cksum mem buffer ios_ptr)
    (ios_ptr + 0x2C) buffer 0
    (fun i hi => by
      rw [Nat.zero_add] at hi ⊢
      exact push_config_part_text C3725_NVRAM_SIZE nvram_cksum mem buffer ios_ptr i hi)
  simpa using h

/-! ## Decoding -/

theorem ntohs_at_lt (mem : Nat → Nat) (p : Nat) : ntohs_at mem p < 65536 := by
  unfold ntohs_at
  omega

theorem ntohl_at_lt (mem : Nat → Nat) (p : Nat) : ntohl_at mem p < 4294967296 := by
  unfold ntohl_at
  omega

/-- The path of `c3725_nvram_extract_config` through all its checks. -/
theorem extract_config_ok (OFF : Nat) (malloc_ok : Nat → Bool) (f : MappedFile)
    (hsz : OFF + 0x30 < f.size)
    (hm1 : ntohs_at f.mem (OFF + 0x06) = 0xF0A5)
    (hm2 : ntohs_at f.mem (OFF + 0x08) = 0xABCD)
    (hmalloc : malloc_ok ((ntohl_at f.mem (OFF + 0x18) + 1) % 4294967296) = true)
    (hend : OFF + (ntohl_at f.mem (OFF + 0x10) + 1) % 4294967296 + 0x08
      + ntohl_at f.mem (OFF + 0x18) ≤ f.size) :
    c3725_nvram_extract_config OFF malloc_ok (some f)
      = ⟨((ntohl_at f.mem (OFF + 0x18) + 4294967296 - 1) % 4294967296 : Nat),
          .allocated ((ntohl_at f.mem (OFF + 0x18) + 1) % 4294967296)
            (memcpy_from f.mem (OFF + (ntohl_at f.mem (OFF + 0x10) + 1) % 4294967296 + 0x08)
              ((ntohl_at f.mem (OFF + 0x18) + 4294967296 - 1) % 4294967296) ++ [0])⟩ := by
  unfold c3725_nvram_extract_config
  simp only []
  rw [if_neg (by omega), if_neg (by simp [hm1, hm2]), if_neg (by simp [hmalloc]),
    if_neg (by omega)]

/-- The two early failures of `c3725_nvram_extract_config`: neither reaches `malloc`. -/
theorem extract_config_early (OFF : Nat) (malloc_ok : Nat → Bool) (f : MappedFile)
    (h : f.size ≤ OFF + 0x30 ∨ ntohs_at f.mem (OFF + 0x06) ≠ 0xF0A5
      ∨ ntohs_at f.mem (OFF + 0x08) ≠ 0xABCD) :
    c3725_nvram_extract_config OFF malloc_ok (some f) = ⟨-1, .untouched⟩ := by
  unfold c3725_nvram_extract_config
  simp only []
  by_cases hsz : OFF + 0x30 ≥ f.size
  · rw [if_pos hsz]
  · rw [if_neg hsz, if_pos (by omega)]

/-- The failure of the end-of-region check. -/
theorem extract_config_truncated (OFF : Nat) (malloc_ok : Nat → Bool) (f : MappedFile)
    (hend : f.size < OFF + (ntohl_at f.mem (OFF + 0x10) + 1) % 4294967296 + 0x08
      + ntohl_at f.mem (OFF + 0x18)) :
    (c3725_nvram_extract_config OFF malloc_ok (some f)).ret = -1 := by
  unfold c3725_nvram_extract_config
  simp only []
  split_ifs <;> rfl

/-! ## The two copies written by `c3725_nvram_push_config` -/

theorem push_config_part_copy_holds (S : Nat) (ck : (Nat → Nat) → Nat → Nat → Nat)
    (mem : Nat → Nat) (T : List Nat) (ios_ptr : Nat) :
    copy_holds (c3725_nvram_push_config_part S ck mem T ios_ptr) ios_ptr T := by
  obtain ⟨h1, h2, h3, h4, h5, h6, h7⟩ := push_config_part_header S ck mem T ios_ptr
  exact ⟨h1, h2, h3, h4, h5, h6, h7,
    fun i hi => push_config_part_text S ck mem T ios_ptr i hi⟩

theorem copy_holds_congr {m1 m2 : Nat → Nat} {ios_ptr : Nat} {T : List Nat}
    (h : ∀ a, ios_ptr + 0x06 ≤ a → a < ios_ptr + 0x2c + T.length → m2 a = m1 a)
    (hc : copy_holds m1 ios_ptr T) : copy_holds m2 ios_ptr T := by
  obtain ⟨h1, h2, h3, h4, h5, h6, h7, h8⟩ := hc
  refine ⟨?_, ?_, ?_, ?_, ?_, ?_, ?_, ?_⟩
  · rw [← h1]; exact ntohs_at_congr (fun a ha hb => h a (by omega) (by omega))
  · rw [← h2]; exact ntohs_at_congr (fun a ha hb => h a (by omega) (by omega))
  · rw [← h3]; exact ntohs_at_congr (fun a ha hb => h a (by omega) (by omega))
  · rw [← h4]; exact ntohs_at_congr (fun a ha hb => h a (by omega) (by omega))
  · rw [← h5]; exact ntohl_at_congr (fun a ha hb => h a (by omega) (by omega))
  · rw [← h6]; exact ntohl_at_congr (fun a ha hb => h a (by omega) (by omega))
  · rw [← h7]; exact ntohl_at_congr (fun a ha hb => h a (by omega) (by omega))
  · intro i hi
    rw [h _ (by omega) (by omega)]
    exact h8 i hi

/-- After `c3725_nvram_push_config`, both copies hold the fields and the text. -/
theorem push_config_copies (OFF S : Nat) (ck : (Nat → Nat) → Nat → Nat → Nat)
    (f : MappedFile) (T : List Nat) (hS : 0x2C + T.length ≤ S) :
    ∃ m, c3725_nvram_push_config OFF S ck (some f) T = (0, some ⟨f.size, m⟩)
      ∧ copy_holds m OFF T ∧ copy_holds m (OFF + S) T := by
  refine ⟨_, rfl, ?_, ?_⟩
  · apply copy_holds_congr _ (push_config_part_copy_holds S ck f.mem T OFF)
    intro a ha hb
    exact push_config_part_frame S ck _ T (OFF + S) a (by omega)
  · exact push_config_part_copy_holds S ck _ T (OFF + S)

/-- Decoding a copy that holds the fields and a text of `L ≥ 1` bytes gives `L - 1` bytes:
the text without its first byte, and a terminating NUL. -/
theorem extract_config_of_copy_holds (ios_ptr : Nat) (malloc_ok : Nat → Bool) (f : MappedFile)
    (T : List Nat) (hc : copy_holds f.mem ios_ptr T) (hL : 1 ≤ T.length)
    (hL32 : T.length < 4294967295) (hmalloc : malloc_ok (T.length + 1) = true)
    (hhdr : ios_ptr + 0x30 < f.size) (hsz : ios_ptr + 0x2D + T.length ≤ f.size) :
    c3725_nvram_extract_config ios_ptr malloc_ok (some f)
      = ⟨(T.length : Int) - 1, .allocated (T.length + 1) (T.drop 1 ++ [0])⟩ := by
  obtain ⟨h1, h2, _, _, h5, _, h7, h8⟩ := hc
  have e7 : ntohl_at f.mem (ios_ptr + 0x18) = T.length := by
    rw [h7]; exact Nat.mod_eq_of_lt (by omega)
  have hsz1 : (T.length + 1) % 4294967296 = T.length + 1 := Nat.mod_eq_of_lt (by omega)
  have hn : (T.length + 4294967296 - 1) % 4294967296 = T.length - 1 := by omega
  have hst : (ntohl_at f.mem (ios_ptr + 0x10) + 1) % 4294967296 = 0x25 := by
    rw [h5]
  rw [extract_config_ok ios_ptr malloc_ok f hhdr h1 h2
    (by rw [e7, hsz1]; exact hmalloc) (by rw [e7, hst]; omega)]
  rw [e7, hst, hsz1, hn]
  have hd := memcpy_from_eq_drop f.mem (ios_ptr + 0x25 + 0x08) T 1
    (fun i hi => by
      have ha : ios_ptr + 0x25 + 0x08 + i = ios_ptr + 0x2c + (1 + i) := by omega
      rw [ha]
      exact h8 (1 + i) hi)
  have hret : ((T.length - 1 : Nat) : Int) = (T.length : Int) - 1 := by omega
  rw [hd, hret]

/-! ## Claims on the NVRAM codec -/

/-- C1, as amended. For every text `T` of `L ≥ 1` bytes with `0x2C + L` not larger than one
copy (`C3725_NVRAM_SIZE`, itself below 2^32), in a rom file that holds both copies and with
the allocation succeeding, decoding with `c3725_nvram_extract_config` the region written by
`c3725_nvram_push_config(T, L)` returns the byte count `L - 1`, and the buffer (of `L + 1`
allocated bytes) holds the last `L - 1` bytes of `T`, that is `T` without its first byte,
followed by a NUL. -/
theorem c3725_nvram_push_then_extract (C3725_NVRAM_OFFSET C3725_NVRAM_SIZE : Nat)
    (nvram_cksum : (Nat → Nat) → Nat → Nat → Nat) (malloc_ok : Nat → Bool)
    (f : MappedFile) (T : List Nat)
    (hL : 1 ≤ T.length) (hS : 0x2C + T.length ≤ C3725_NVRAM_SIZE)
    (hS32 : C3725_NVRAM_SIZE < 4294967296)
    (hf : C3725_NVRAM_OFFSET + 2 * C3725_NVRAM_SIZE ≤ f.size)
    (hmalloc : malloc_ok (T.length + 1) = true) :
    (c3725_nvram_push_config C3725_NVRAM_OFFSET C3725_NVRAM_SIZE nvram_cksum (some f) T).1 = 0
    ∧ c3725_nvram_extract_config C3725_NVRAM_OFFSET malloc_ok
        (c3725_nvram_push_config C3725_NVRAM_OFFSET C3725_NVRAM_SIZE nvram_cksum (some f) T).2
      = ⟨(T.length : Int) - 1, .allocated (T.length + 1) (T.drop 1 ++ [0])⟩ := by
  obtain ⟨m, hm, hc, _⟩ :=
    push_config_copies C3725_NVRAM_OFFSET C3725_NVRAM_SIZE nvram_cksum f T hS
  rw [hm]
  refine ⟨rfl, ?_⟩
  exact extract_config_of_copy_holds C3725_NVRAM_OFFSET malloc_ok ⟨f.size, m⟩ T hc hL
    (by omega) hmalloc (by show _ < f.size; omega) (by show _ ≤ f.size; omega)

/-- C1, witness: "hostname R1\n" (12 bytes) pushed into a zero-filled 2 MB rom. -/
theorem c3725_nvram_push_then_extract_witness :
    (1 ≤ hostname_R1.length ∧ 0x2C + hostname_R1.length ≤ 0xE000
      ∧ 0xE0000 + 2 * 0xE000 ≤ zero_rom.size)
    ∧ (c3725_nvram_push_config 0xE0000 0xE000 cksum0 (some zero_rom) hostname_R1).1 = 0
    ∧ c3725_nvram_extract_config 0xE0000 (fun _ => true)
        (c3725_nvram_push_config 0xE0000 0xE000 cksum0 (some zero_rom) hostname_R1).2
      = ⟨(hostname_R1.length : Int) - 1,
          .allocated (hostname_R1.length + 1) (hostname_R1.drop 1 ++ [0])⟩ :=
  ⟨by decide,
    c3725_nvram_push_then_extract 0xE0000 0xE000 cksum0 (fun _ => true) zero_rom hostname_R1
      (by decide) (by decide) (by decide) (by decide) rfl⟩

/-- C1, counterexample to the round trip as stated: for T = "hostname R1\n", L = 12,
decoding what `c3725_nvram_push_config` wrote returns 11, not 12, and the buffer holds
"ostname R1\n" and a NUL, not the 12 bytes of T.  Counting a terminating NUL in the text
(13 bytes) does not help: the result is then 12 and "ostname R1\n" with two NUL. -/
theorem c3725_nvram_roundtrip_hostname_R1 :
    hostname_R1.length = 12
    ∧ (c3725_nvram_extract_config 0xE0000 (fun _ => true)
        (c3725_nvram_push_config 0xE0000 0xE000 cksum0 (some zero_rom) hostname_R1).2).ret = 11
    ∧ (c3725_nvram_extract_config 0xE0000 (fun _ => true)
        (c3725_nvram_push_config 0xE0000 0xE000 cksum0 (some zero_rom) hostname_R1).2).buffer
      = .allocated 13 [111, 115, 116, 110, 97, 109, 101, 32, 82, 49, 10, 0]
    ∧ c3725_nvram_extract_config 0xE0000 (fun _ => true)
        (c3725_nvram_push_config 0xE0000 0xE000 cksum0 (some zero_rom) (hostname_R1 ++ [0])).2
      = ⟨12, .allocated 14 [111, 115, 116, 110, 97, 109, 101, 32, 82, 49, 10, 0, 0]⟩ := by
  decide

/-- C2, as amended. For every region that passes the header-size check, carries the magic
numbers 0xF0A5/0xABCD, has stored config_length `n` with `1 ≤ n < 0xFFFFFFFF` and passes the
end-of-region check, when the allocation of `n + 1` bytes succeeds,
`c3725_nvram_extract_config` returns `n - 1` and the returned buffer, of `n + 1` bytes,
consists of the `n - 1` region bytes starting at offset
(configuration-area base + ((big-endian u32 at +0x10) + 1 reduced modulo 2^32) + 0x08),
followed by one NUL byte. -/
theorem c3725_nvram_extract_config_arith (C3725_NVRAM_OFFSET : Nat) (malloc_ok : Nat → Bool)
    (f : MappedFile)
    (hsz : C3725_NVRAM_OFFSET + 0x30 < f.size)
    (hm1 : ntohs_at f.mem (C3725_NVRAM_OFFSET + 0x06) = 0xF0A5)
    (hm2 : ntohs_at f.mem (C3725_NVRAM_OFFSET + 0x08) = 0xABCD)
    (hn : 1 ≤ ntohl_at f.mem (C3725_NVRAM_OFFSET + 0x18))
    (hn2 : ntohl_at f.mem (C3725_NVRAM_OFFSET + 0x18) < 0xFFFFFFFF)
    (hmalloc : malloc_ok (ntohl_at f.mem (C3725_NVRAM_OFFSET + 0x18) + 1) = true)
    (hend : C3725_NVRAM_OFFSET + (ntohl_at f.mem (C3725_NVRAM_OFFSET + 0x10) + 1) % 4294967296
      + 0x08 + ntohl_at f.mem (C3725_NVRAM_OFFSET + 0x18) ≤ f.size) :
    c3725_nvram_extract_config C3725_NVRAM_OFFSET malloc_ok (some f)
      = ⟨(ntohl_at f.mem (C3725_NVRAM_OFFSET + 0x18) : Int) - 1,
          .allocated (ntohl_at f.mem (C3725_NVRAM_OFFSET + 0x18) + 1)
            (memcpy_from f.mem
              (C3725_NVRAM_OFFSET + (ntohl_at f.mem (C3725_NVRAM_OFFSET + 0x10) + 1) % 4294967296
                + 0x08)
              (ntohl_at f.mem (C3725_NVRAM_OFFSET + 0x18) - 1) ++ [0])⟩
    ∧ (memcpy_from f.mem
          (C3725_NVRAM_OFFSET + (ntohl_at f.mem (C3725_NVRAM_OFFSET + 0x10) + 1) % 4294967296
            + 0x08)
          (ntohl_at f.mem (C3725_NVRAM_OFFSET + 0x18) - 1) ++ [0]).length
        ≤ ntohl_at f.mem (C3725_NVRAM_OFFSET + 0x18) + 1 := by
  have hk : (ntohl_at f.mem (C3725_NVRAM_OFFSET + 0x18) + 4294967296 - 1) % 4294967296
      = ntohl_at f.mem (C3725_NVRAM_OFFSET + 0x18) - 1 := by omega
  have hc : (ntohl_at f.mem (C3725_NVRAM_OFFSET + 0x18) + 1) % 4294967296
      = ntohl_at f.mem (C3725_NVRAM_OFFSET + 0x18) + 1 := by omega
  have hret : ((ntohl_at f.mem (C3725_NVRAM_OFFSET + 0x18) - 1 : Nat) : Int)
      = (ntohl_at f.mem (C3725_NVRAM_OFFSET + 0x18) : Int) - 1 := by omega
  refine ⟨?_, ?_⟩
  · rw [extract_config_ok C3725_NVRAM_OFFSET malloc_ok f hsz hm1 hm2 (by rw [hc]; exact hmalloc)
      hend, hk, hc, hret]
  · rw [List.length_append, memcpy_from_length, List.length_singleton]
    omega

/-- C2, witness: the copy written for "hostname R1\n" decodes to 11 bytes read from
0xE0000 + 0x25 + 0x08. -/
theorem c3725_nvram_extract_config_arith_witness :
    ntohl_at pushed_rom.mem (0xE0000 + 0x10) = 0x24
    ∧ ntohl_at pushed_rom.mem (0xE0000 + 0x18) = 12
    ∧ c3725_nvram_extract_config 0xE0000 (fun _ => true) (some pushed_rom)
      = ⟨(ntohl_at pushed_rom.mem (0xE0000 + 0x18) : Int) - 1,
          .allocated (ntohl_at pushed_rom.mem (0xE0000 + 0x18) + 1)
            (memcpy_from pushed_rom.mem
              (0xE0000 + (ntohl_at pushed_rom.mem (0xE0000 + 0x10) + 1) % 4294967296 + 0x08)
              (ntohl_at pushed_rom.mem (0xE0000 + 0x18) - 1) ++ [0])⟩ :=
  ⟨by decide, by decide,
    (c3725_nvram_extract_config_arith 0xE0000 (fun _ => true) pushed_rom
      (by decide) (by decide) (by decide) (by decide) (by decide) rfl (by decide)).1⟩

/-- C2, counterexample to the offset as stated: with stored config start 0xFFFFFFFF and
stored length 2 in a region of 0xE0040 bytes, all checks pass and the function returns 1,
but the byte it returns is the one at base + 0x08 (0xAB, the start + 1 having wrapped to 0),
not the byte at base + 0xFFFFFFFF + 1 + 0x08. -/
theorem c3725_nvram_extract_config_start_wraps :
    0xE0000 + 0x30 < wrap_rom.size
    ∧ ntohs_at wrap_rom.mem (0xE0000 + 0x06) = 0xF0A5
    ∧ ntohs_at wrap_rom.mem (0xE0000 + 0x08) = 0xABCD
    ∧ ntohl_at wrap_rom.mem (0xE0000 + 0x10) = 0xFFFFFFFF
    ∧ ntohl_at wrap_rom.mem (0xE0000 + 0x18) = 2
    ∧ c3725_nvram_extract_config 0xE0000 (fun _ => true) (some wrap_rom)
        = ⟨1, .allocated 3 [0xAB, 0]⟩
    ∧ memcpy_from wrap_rom.mem (0xE0000 + 0xFFFFFFFF + 1 + 0x08) (2 - 1) ++ [0] = [0, 0] := by
  decide

/-- C5 (magic rejection). For every region large enough to hold the fixed header whose
big-endian u16 at +0x06 is not 0xF0A5 or whose u16 at +0x08 is not 0xABCD,
`c3725_nvram_extract_config` returns -1 and leaves the output buffer of the caller
untouched: `malloc` is not called and `*buffer` is not assigned. -/
theorem c3725_nvram_extract_config_bad_magic (C3725_NVRAM_OFFSET : Nat)
    (malloc_ok : Nat → Bool) (f : MappedFile)
    (_hsz : C3725_NVRAM_OFFSET + 0x30 < f.size)
    (hmagic : ntohs_at f.mem (C3725_NVRAM_OFFSET + 0x06) ≠ 0xF0A5
      ∨ ntohs_at f.mem (C3725_NVRAM_OFFSET + 0x08) ≠ 0xABCD) :
    c3725_nvram_extract_config C3725_NVRAM_OFFSET malloc_ok (some f)
      = ⟨-1, ConfigBuffer.untouched⟩ :=
  extract_config_early C3725_NVRAM_OFFSET malloc_ok f (Or.inr hmagic)

/-- C5, witness: a zero-filled 2 MB rom has no magic numbers at 0xE0000. -/
theorem c3725_nvram_extract_config_bad_magic_witness :
    (0xE0000 + 0x30 < zero_rom.size ∧ ntohs_at zero_rom.mem (0xE0000 + 0x06) ≠ 0xF0A5)
    ∧ c3725_nvram_extract_config 0xE0000 (fun _ => true) (some zero_rom)
      = ⟨-1, ConfigBuffer.untouched⟩ :=
  ⟨by decide,
    c3725_nvram_extract_config_bad_magic 0xE0000 (fun _ => true) zero_rom (by decide)
      (Or.inl (by decide))⟩

/-- C6, as amended. `c3725_nvram_extract_config` returns -1 for every region whose size is
too small to contain the fixed header (size <= C3725_NVRAM_OFFSET + 0x30), and for every
region with valid magic in which the end of the text as the code computes it
(configuration-area base + ((stored config_start + 1) reduced modulo 2^32) + 0x08 +
config_length) lies beyond the end of the mapped region. -/
theorem c3725_nvram_extract_config_truncated (C3725_NVRAM_OFFSET : Nat)
    (malloc_ok : Nat → Bool) (f : MappedFile)
    (h : f.size ≤ C3725_NVRAM_OFFSET + 0x30
      ∨ (ntohs_at f.mem (C3725_NVRAM_OFFSET + 0x06) = 0xF0A5
        ∧ ntohs_at f.mem (C3725_NVRAM_OFFSET + 0x08) = 0xABCD
        ∧ f.size < C3725_NVRAM_OFFSET
            + (ntohl_at f.mem (C3725_NVRAM_OFFSET + 0x10) + 1) % 4294967296 + 0x08
            + ntohl_at f.mem (C3725_NVRAM_OFFSET + 0x18))) :
    (c3725_nvram_extract_config C3725_NVRAM_OFFSET malloc_ok (some f)).ret = -1 := by
  rcases h with h | ⟨_, _, h⟩
  · rw [extract_config_early C3725_NVRAM_OFFSET malloc_ok f (Or.inl h)]
  · exact extract_config_truncated C3725_NVRAM_OFFSET malloc_ok f h

/-- C6, witness: valid magic, stored start 0x24 and stored length 0x100 in a region of
0xE0040 bytes: the text would end at 0xE012D. -/
theorem c3725_nvram_extract_config_truncated_witness :
    (ntohs_at short_rom.mem (0xE0000 + 0x06) = 0xF0A5
      ∧ ntohs_at short_rom.mem (0xE0000 + 0x08) = 0xABCD
      ∧ short_rom.size < 0xE0000 + (ntohl_at short_rom.mem (0xE0000 + 0x10) + 1) % 4294967296
          + 0x08 + ntohl_at short_rom.mem (0xE0000 + 0x18))
    ∧ (c3725_nvram_extract_config 0xE0000 (fun _ => true) (some short_rom)).ret = -1 :=
  ⟨by decide,
    c3725_nvram_extract_config_truncated 0xE0000 (fun _ => true) short_rom
      (Or.inr (by decide))⟩

/-- C6, counterexample to the end of text as stated: with valid magic, stored config start
0xFFFFFFFF and stored length 2 in a region of 0xE0040 bytes, base + stored start + 1 + 0x08
+ length lies far beyond the end of the region, yet the function returns 1, not -1. -/
theorem c3725_nvram_extract_config_end_wraps :
    ntohs_at wrap_rom.mem (0xE0000 + 0x06) = 0xF0A5
    ∧ ntohs_at wrap_rom.mem (0xE0000 + 0x08) = 0xABCD
    ∧ wrap_rom.size < 0xE0000 + ntohl_at wrap_rom.mem (0xE0000 + 0x10) + 1 + 0x08
        + ntohl_at wrap_rom.mem (0xE0000 + 0x18)
    ∧ (c3725_nvram_extract_config 0xE0000 (fun _ => true) (some wrap_rom)).ret = 1
    ∧ (c3725_nvram_extract_config 0xE0000 (fun _ => true) (some wrap_rom)).ret ≠ -1 := by
  decide

/-- Redundancy of the two copies away from the empty text. For every text of length `L` with
`0x2C + L <= C3725_NVRAM_SIZE`, after `c3725_nvram_push_config` (one copy being at least
0x30 bytes, the size of the fixed header, and the rom file extending past the two copies)
the backup copy at configuration-area base + C3725_NVRAM_SIZE holds the same magic, version,
format tag, config_start_rel, config_end_rel, config_length and text bytes as the primary
copy at the base; and when `L ≥ 1`, decoding the backup copy yields the same text and
length as decoding the primary copy (the byte count `L - 1`). -/
theorem c3725_nvram_push_config_backup (C3725_NVRAM_OFFSET C3725_NVRAM_SIZE : Nat)
    (nvram_cksum : (Nat → Nat) → Nat → Nat → Nat) (malloc_ok : Nat → Bool)
    (f : MappedFile) (T : List Nat)
    (hS : 0x2C + T.length ≤ C3725_NVRAM_SIZE)
    (hS30 : 0x30 ≤ C3725_NVRAM_SIZE) (hS32 : C3725_NVRAM_SIZE < 4294967296)
    (hf : C3725_NVRAM_OFFSET + 2 * C3725_NVRAM_SIZE < f.size)
    (hmalloc : malloc_ok (T.length + 1) = true) :
    ∃ m, c3725_nvram_push_config C3725_NVRAM_OFFSET C3725_NVRAM_SIZE nvram_cksum (some f) T
        = (0, some ⟨f.size, m⟩)
      ∧ ntohs_at m (C3725_NVRAM_OFFSET + C3725_NVRAM_SIZE + 0x06)
          = ntohs_at m (C3725_NVRAM_OFFSET + 0x06)
      ∧ ntohs_at m (C3725_NVRAM_OFFSET + C3725_NVRAM_SIZE + 0x08)
          = ntohs_at m (C3725_NVRAM_OFFSET + 0x08)
      ∧ ntohs_at m (C3725_NVRAM_OFFSET + C3725_NVRAM_SIZE + 0x0A)
          = ntohs_at m (C3725_NVRAM_OFFSET + 0x0A)
      ∧ ntohs_at m (C3725_NVRAM_OFFSET + C3725_NVRAM_SIZE + 0x0E)
          = ntohs_at m (C3725_NVRAM_OFFSET + 0x0E)
      ∧ ntohl_at m (C3725_NVRAM_OFFSET + C3725_NVRAM_SIZE + 0x10)
          = ntohl_at m (C3725_NVRAM_OFFSET + 0x10)
      ∧ ntohl_at m (C3725_NVRAM_OFFSET + C3725_NVRAM_SIZE + 0x14)
          = ntohl_at m (C3725_NVRAM_OFFSET + 0x14)
      ∧ ntohl_at m (C3725_NVRAM_OFFSET + C3725_NVRAM_SIZE + 0x18)
          = ntohl_at m (C3725_NVRAM_OFFSET + 0x18)
      ∧ memcpy_from m (C3725_NVRAM_OFFSET + C3725_NVRAM_SIZE + 0x2C) T.length
          = memcpy_from m (C3725_NVRAM_OFFSET + 0x2C) T.length
      ∧ (1 ≤ T.length →
          c3725_nvram_extract_config (C3725_NVRAM_OFFSET + C3725_NVRAM_SIZE) malloc_ok
              (some ⟨f.size, m⟩)
            = c3725_nvram_extract_config C3725_NVRAM_OFFSET malloc_ok (some ⟨f.size, m⟩)
          ∧ (c3725_nvram_extract_config C3725_NVRAM_OFFSET malloc_ok (some ⟨f.size, m⟩)).ret
            = (T.length : Int) - 1) := by
  obtain ⟨m, hm, hp, hb⟩ :=
    push_config_copies C3725_NVRAM_OFFSET C3725_NVRAM_SIZE nvram_cksum f T hS
  refine ⟨m, hm, ?_⟩
  have hp0 := hp
  have hb0 := hb
  obtain ⟨p1, p2, p3, p4, p5, p6, p7, p8⟩ := hp
  obtain ⟨b1, b2, b3, b4, b5, b6, b7, b8⟩ := hb
  refine ⟨by rw [b1, p1], by rw [b2, p2], by rw [b3, p3], by rw [b4, p4], by rw [b5, p5],
    by rw [b6, p6], by rw [b7, p7], ?_, ?_⟩
  · have e1 := memcpy_from_eq_drop m (C3725_NVRAM_OFFSET + C3725_NVRAM_SIZE + 0x2C) T 0
      (fun i hi => by rw [Nat.zero_add] at hi ⊢; exact b8 i hi)
    have e2 := memcpy_from_eq_drop m (C3725_NVRAM_OFFSET + 0x2C) T 0
      (fun i hi => by rw [Nat.zero_add] at hi ⊢; exact p8 i hi)
    rw [Nat.sub_zero] at e1 e2
    rw [e1, e2]
  · intro hL
    have eb := extract_config_of_copy_holds (C3725_NVRAM_OFFSET + C3725_NVRAM_SIZE) malloc_ok
      ⟨f.size, m⟩ T hb0 hL (by omega) hmalloc (by show _ < f.size; omega)
      (by show _ ≤ f.size; omega)
    have ep := extract_config_of_copy_holds C3725_NVRAM_OFFSET malloc_ok
      ⟨f.size, m⟩ T hp0 hL (by omega) hmalloc (by show _ < f.size; omega)
      (by show _ ≤ f.size; omega)
    rw [eb, ep]
    exact ⟨rfl, rfl⟩

/-- The two copies of "hostname R1\n" pushed into a zero-filled 2 MB rom. -/
theorem c3725_nvram_push_config_backup_witness :
    (0x2C + hostname_R1.length ≤ 0xE000 ∧ 0x30 ≤ 0xE000
      ∧ 0xE0000 + 2 * 0xE000 < zero_rom.size) ∧
    ∃ m, c3725_nvram_push_config 0xE0000 0xE000 cksum0 (some zero_rom) hostname_R1
        = (0, some ⟨zero_rom.size, m⟩)
      ∧ ntohs_at m (0xE0000 + 0xE000 + 0x06) = ntohs_at m (0xE0000 + 0x06)
      ∧ ntohs_at m (0xE0000 + 0xE000 + 0x08) = ntohs_at m (0xE0000 + 0x08)
      ∧ ntohs_at m (0xE0000 + 0xE000 + 0x0A) = ntohs_at m (0xE0000 + 0x0A)
      ∧ ntohs_at m (0xE0000 + 0xE000 + 0x0E) = ntohs_at m (0xE0000 + 0x0E)
      ∧ ntohl_at m (0xE0000 + 0xE000 + 0x10) = ntohl_at m (0xE0000 + 0x10)
      ∧ ntohl_at m (0xE0000 + 0xE000 + 0x14) = ntohl_at m (0xE0000 + 0x14)
      ∧ ntohl_at m (0xE0000 + 0xE000 + 0x18) = ntohl_at m (0xE0000 + 0x18)
      ∧ memcpy_from m (0xE0000 + 0xE000 + 0x2C) hostname_R1.length
          = memcpy_from m (0xE0000 + 0x2C) hostname_R1.length
      ∧ (1 ≤ hostname_R1.length →
          c3725_nvram_extract_config (0xE0000 + 0xE000) (fun _ => true)
              (some ⟨zero_rom.size, m⟩)
            = c3725_nvram_extract_config 0xE0000 (fun _ => true) (some ⟨zero_rom.size, m⟩)
          ∧ (c3725_nvram_extract_config 0xE0000 (fun _ => true)
              (some ⟨zero_rom.size, m⟩)).ret = (hostname_R1.length : Int) - 1) :=
  ⟨by decide,
    c3725_nvram_push_config_backup 0xE0000 0xE000 cksum0 (fun _ => true) zero_rom hostname_R1
      (by decide) (by decide) (by decide) (by decide) rfl⟩

/-- C4, failing input: the empty text (L = 0, so 0x2C + L <= C3725_NVRAM_SIZE holds).
After `c3725_nvram_push_config` into a zero-filled 2 MB rom both copies carry the same
header, with stored config_length 0. Decoding the backup copy at base + 0xE000 does not
yield the text: `nvlen-1` wraps, the decoder allocates 1 byte and copies 0xFFFFFFFF bytes
plus the NUL into it, from a source range that starts at base + 0xE000 + 0x2D and ends
beyond the mapped file; decoding the primary copy overruns its buffer in the same way. -/
theorem c3725_nvram_push_config_backup_empty_text_overruns :
    0x2C + ([] : List Nat).length ≤ 0xE000
    ∧ (c3725_nvram_push_config 0xE0000 0xE000 cksum0 (some zero_rom) []).2
        = some empty_pushed_rom
    ∧ ntohl_at empty_pushed_rom.mem (0xE0000 + 0xE000 + 0x10) = 0x24
    ∧ ntohl_at empty_pushed_rom.mem (0xE0000 + 0xE000 + 0x18) = 0
    ∧ ntohl_at empty_pushed_rom.mem (0xE0000 + 0x18) = 0
    ∧ (∃ written,
        (c3725_nvram_extract_config (0xE0000 + 0xE000) (fun _ => true)
          (some empty_pushed_rom)).buffer = .allocated 1 written
        ∧ written.length = 4294967296)
    ∧ empty_pushed_rom.size < 0xE0000 + 0xE000 + 0x24 + 1 + 0x08 + 4294967295
    ∧ (∃ written,
        (c3725_nvram_extract_config 0xE0000 (fun _ => true) (some empty_pushed_rom)).buffer
          = .allocated 1 written
        ∧ written.length = 4294967296) := by
  have h10 : ntohl_at empty_pushed_rom.mem (0xE0000 + 0x10) = 0x24 := by decide
  have h18 : ntohl_at empty_pushed_rom.mem (0xE0000 + 0x18) = 0 := by decide
  have b10 : ntohl_at empty_pushed_rom.mem (0xE0000 + 0xE000 + 0x10) = 0x24 := by decide
  have b18 : ntohl_at empty_pushed_rom.mem (0xE0000 + 0xE000 + 0x18) = 0 := by decide
  have ep := extract_config_ok 0xE0000 (fun _ => true) empty_pushed_rom (by decide)
    (by decide) (by decide) rfl (by decide)
  have eb := extract_config_ok (0xE0000 + 0xE000) (fun _ => true) empty_pushed_rom (by decide)
    (by decide) (by decide) rfl (by decide)
  rw [ep, eb, h10, h18, b10, b18]
  refine ⟨by decide, rfl, rfl, rfl, rfl, ⟨_, rfl, ?_⟩, by decide, ⟨_, rfl, ?_⟩⟩
  · rw [List.length_append, memcpy_from_length]
    rfl
  · rw [List.length_append, memcpy_from_length]
    rfl

/-! ## Claims on the bay manager -/

theorem get_info_in_range {MAX : Nat} (router : c3725_t) {nm_bay : Nat} (h : nm_bay < MAX) :
    c3725_nm_get_info MAX router nm_bay = some (router.nm_bay nm_bay) := by
  unfold c3725_nm_get_info
  rw [if_neg (by omega)]

theorem get_info_out_of_range {MAX : Nat} (router : c3725_t) {nm_bay : Nat}
    (h : MAX ≤ nm_bay) : c3725_nm_get_info MAX router nm_bay = none := by
  unfold c3725_nm_get_info
  rw [if_pos h]

theorem set_bay_same (w : World) (nm_bay : Nat) (bay : c3725_nm_bay) :
    (set_bay w nm_bay bay).router.nm_bay nm_bay = bay := by
  simp [set_bay]

/-- C7, as amended. For every router state and device type, `c3725_nm_add_binding` with bay
index >= `C3725_MAX_NM_BAYS` returns -1 and leaves the whole state unchanged.  (Bay index 0
is not rejected: it is handled like every other bay in range.) -/
theorem c3725_nm_add_binding_out_of_range (C3725_MAX_NM_BAYS : Nat)
    (nm_drivers : List c3725_nm_driver) (w : World) (dev_type : String) (nm_bay : Nat)
    (h : C3725_MAX_NM_BAYS ≤ nm_bay) :
    c3725_nm_add_binding C3725_MAX_NM_BAYS nm_drivers w dev_type nm_bay = (-1, w) := by
  unfold c3725_nm_add_binding
  rw [get_info_out_of_range w.router h]

/-- C7, witness: bay 3 of a router with 3 bays. -/
theorem c3725_nm_add_binding_out_of_range_witness :
    3 ≤ 3 ∧ c3725_nm_add_binding 3 test_drivers fresh_world "NM-1FE-TX" 3 = (-1, fresh_world) :=
  ⟨by decide, c3725_nm_add_binding_out_of_range 3 test_drivers fresh_world "NM-1FE-TX" 3
    (by decide)⟩

/-- C7, counterexample to the rejection of bay 0: on a fresh router with 3 bays,
`c3725_nm_add_binding` of "GT96100-FE" on bay 0 returns 0 and the bay gets this device type. -/
theorem c3725_nm_add_binding_bay0 :
    (c3725_nm_add_binding 3 test_drivers fresh_world "GT96100-FE" 0).1 = 0
    ∧ (fresh_world.router.nm_bay 0).dev_type = none
    ∧ ((c3725_nm_add_binding 3 test_drivers fresh_world "GT96100-FE" 0).2.router.nm_bay
        0).dev_type = some "GT96100-FE" := by
  decide

theorem get_driver_some {nm_drivers : List c3725_nm_driver} {dev_type : String}
    {d : c3725_nm_driver} (h : c3725_nm_get_driver nm_drivers dev_type = some d) :
    d ∈ nm_drivers ∧ d.dev_type = dev_type := by
  unfold c3725_nm_get_driver at h
  have h1 := List.find?_some h
  exact ⟨List.mem_of_find?_eq_some h, by simpa using h1⟩

theorem get_driver_none {nm_drivers : List c3725_nm_driver} {dev_type : String}
    (h : c3725_nm_get_driver nm_drivers dev_type = none) :
    ¬ ∃ d ∈ nm_drivers, d.dev_type = dev_type := by
  unfold c3725_nm_get_driver at h
  rw [List.find?_eq_none] at h
  rintro ⟨d, hd, he⟩
  exact h d hd (by simpa using he)

theorem add_binding_bound {MAX : Nat} (nm_drivers : List c3725_nm_driver) (w : World)
    (dev_type : String) {nm_bay : Nat} (h : nm_bay < MAX)
    (hd : (w.router.nm_bay nm_bay).dev_type ≠ none) :
    c3725_nm_add_binding MAX nm_drivers w dev_type nm_bay = (-1, w) := by
  unfold c3725_nm_add_binding
  rw [get_info_in_range w.router h]
  exact if_pos hd

theorem add_binding_unknown {MAX : Nat} (nm_drivers : List c3725_nm_driver) (w : World)
    (dev_type : String) {nm_bay : Nat} (h : nm_bay < MAX)
    (hd : (w.router.nm_bay nm_bay).dev_type = none)
    (hg : c3725_nm_get_driver nm_drivers dev_type = none) :
    c3725_nm_add_binding MAX nm_drivers w dev_type nm_bay = (-1, w) := by
  unfold c3725_nm_add_binding
  rw [get_info_in_range w.router h]
  simp only [hd, hg, ne_eq, not_true_eq_false, if_false]

theorem add_binding_ok {MAX : Nat} (nm_drivers : List c3725_nm_driver) (w : World)
    (dev_type : String) {nm_bay : Nat} {d : c3725_nm_driver} (h : nm_bay < MAX)
    (hd : (w.router.nm_bay nm_bay).dev_type = none)
    (hg : c3725_nm_get_driver nm_drivers dev_type = some d) :
    c3725_nm_add_binding MAX nm_drivers w dev_type nm_bay
      = (0, set_bay w nm_bay
          { w.router.nm_bay nm_bay with dev_type := some d.dev_type, nm_driver := some d }) := by
  unfold c3725_nm_add_binding
  rw [get_info_in_range w.router h]
  simp only [hd, hg, ne_eq, not_true_eq_false, if_false]

theorem fail_ne_zero (w : World) : ¬ ((-1 : Int), w).1 = 0 := by
  simp

/-- C8 (bind contract on a valid slot). For every bay index in 1..C3725_MAX_NM_BAYS-1,
`c3725_nm_add_binding` succeeds exactly when the bay has no device type and the driver table
contains a descriptor whose `dev_type` equals the requested name; on success the device type
and driver of the bay are those of that descriptor (the first such entry of the table) and
`drv_info` and the NIO list are unchanged; on failure the result is -1 and the whole state
is unchanged. -/
theorem c3725_nm_add_binding_contract (C3725_MAX_NM_BAYS : Nat)
    (nm_drivers : List c3725_nm_driver) (w : World) (dev_type : String) (nm_bay : Nat)
    (_h1 : 1 ≤ nm_bay) (h2 : nm_bay < C3725_MAX_NM_BAYS) :
    ((c3725_nm_add_binding C3725_MAX_NM_BAYS nm_drivers w dev_type nm_bay).1 = 0
      ↔ (w.router.nm_bay nm_bay).dev_type = none
        ∧ ∃ d ∈ nm_drivers, d.dev_type = dev_type)
    ∧ ((c3725_nm_add_binding C3725_MAX_NM_BAYS nm_drivers w dev_type nm_bay).1 = 0 →
        ∃ d, c3725_nm_get_driver nm_drivers dev_type = some d
          ∧ d ∈ nm_drivers ∧ d.dev_type = dev_type
          ∧ ((c3725_nm_add_binding C3725_MAX_NM_BAYS nm_drivers w dev_type
              nm_bay).2.router.nm_bay nm_bay).dev_type = some d.dev_type
          ∧ ((c3725_nm_add_binding C3725_MAX_NM_BAYS nm_drivers w dev_type
              nm_bay).2.router.nm_bay nm_bay).nm_driver = some d
          ∧ ((c3725_nm_add_binding C3725_MAX_NM_BAYS nm_drivers w dev_type
              nm_bay).2.router.nm_bay nm_bay).drv_info = (w.router.nm_bay nm_bay).drv_info
          ∧ ((c3725_nm_add_binding C3725_MAX_NM_BAYS nm_drivers w dev_type
              nm_bay).2.router.nm_bay nm_bay).nio_list = (w.router.nm_bay nm_bay).nio_list)
    ∧ ((c3725_nm_add_binding C3725_MAX_NM_BAYS nm_drivers w dev_type nm_bay).1 ≠ 0 →
        c3725_nm_add_binding C3725_MAX_NM_BAYS nm_drivers w dev_type nm_bay = (-1, w)) := by
  by_cases hd : (w.router.nm_bay nm_bay).dev_type = none
  · cases hg : c3725_nm_get_driver nm_drivers dev_type with
    | none =>
      have hn := get_driver_none hg
      rw [add_binding_unknown nm_drivers w dev_type h2 hd hg]
      exact ⟨⟨fun h => absurd h (fail_ne_zero w), fun h => absurd h.2 hn⟩,
        fun h => absurd h (fail_ne_zero w), fun _ => rfl⟩
    | some d =>
      obtain ⟨hm, he⟩ := get_driver_some hg
      rw [add_binding_ok nm_drivers w dev_type h2 hd hg]
      refine ⟨⟨fun _ => ⟨hd, d, hm, he⟩, fun _ => rfl⟩, fun _ => ?_, fun h => absurd rfl h⟩
      refine ⟨d, rfl, hm, he, ?_, ?_, ?_, ?_⟩ <;> rw [set_bay_same]
  · rw [add_binding_bound nm_drivers w dev_type h2 hd]
    exact ⟨⟨fun h => absurd h (fail_ne_zero w), fun h => absurd h.1 hd⟩,
      fun h => absurd h (fail_ne_zero w), fun _ => rfl⟩

/-- C8, witness: binding "NM-1FE-TX" to the empty bay 1 of a fresh router with 3 bays. -/
theorem c3725_nm_add_binding_contract_witness :
    (1 ≤ 1 ∧ 1 < 3)
    ∧ (c3725_nm_add_binding 3 test_drivers fresh_world "NM-1FE-TX" 1).1 = 0
    ∧ ((c3725_nm_add_binding 3 test_drivers fresh_world "NM-1FE-TX" 1).1 = 0
      ↔ (fresh_world.router.nm_bay 1).dev_type = none
        ∧ ∃ d ∈ test_drivers, d.dev_type = "NM-1FE-TX") :=
  ⟨by decide, by decide,
    (c3725_nm_add_binding_contract 3 test_drivers fresh_world "NM-1FE-TX" 1
      (by decide) (by decide)).1⟩

/-- C9 (unbind contract). For every bay in range, `c3725_nm_remove_binding` returns -1 and
leaves the whole state (so the device type, driver, driver data and NIO bindings of the bay)
unchanged when the bay is Active (`drv_info` set) or Empty (no device type); in every other
case it returns 0 and afterwards the bay has no NIO binding, no device type and no driver. -/
theorem c3725_nm_remove_binding_contract (C3725_MAX_NM_BAYS : Nat) (w : World) (nm_bay : Nat)
    (h : nm_bay < C3725_MAX_NM_BAYS) :
    (((w.router.nm_bay nm_bay).drv_info ≠ none ∨ (w.router.nm_bay nm_bay).dev_type = none) →
      c3725_nm_remove_binding C3725_MAX_NM_BAYS w nm_bay = (-1, w))
    ∧ (¬ ((w.router.nm_bay nm_bay).drv_info ≠ none ∨ (w.router.nm_bay nm_bay).dev_type = none) →
      (c3725_nm_remove_binding C3725_MAX_NM_BAYS w nm_bay).1 = 0
      ∧ ((c3725_nm_remove_binding C3725_MAX_NM_BAYS w nm_bay).2.router.nm_bay nm_bay).nio_list
          = []
      ∧ ((c3725_nm_remove_binding C3725_MAX_NM_BAYS w nm_bay).2.router.nm_bay nm_bay).dev_type
          = none
      ∧ ((c3725_nm_remove_binding C3725_MAX_NM_BAYS w nm_bay).2.router.nm_bay nm_bay).nm_driver
          = none) := by
  unfold c3725_nm_remove_binding
  rw [get_info_in_range w.router h]
  constructor
  · rintro (h1 | h1)
    · exact if_pos h1
    · by_cases h2 : (w.router.nm_bay nm_bay).drv_info ≠ none
      · exact if_pos h2
      · simp only [h2, h1, if_false, if_true]
  · intro hn
    have h1 : ¬ (w.router.nm_bay nm_bay).drv_info ≠ none := fun h1 => hn (Or.inl h1)
    have h2 : ¬ (w.router.nm_bay nm_bay).dev_type = none := fun h2 => hn (Or.inr h2)
    simp only [h1, h2, if_false]
    unfold c3725_nm_remove_all_nio_bindings
    rw [get_info_in_range w.router h]
    simp [set_bay]

/-- C9, witness: bay 1 bound, not initialized, with one NIO binding: unbinding succeeds and
leaves the bay without binding, device type and driver. -/
theorem c3725_nm_remove_binding_contract_witness :
    1 < 3
    ∧ (c3725_nm_remove_binding 3 bound_world 1).1 = 0
    ∧ ((c3725_nm_remove_binding 3 bound_world 1).2.router.nm_bay 1).nio_list = []
    ∧ ((c3725_nm_remove_binding 3 bound_world 1).2.router.nm_bay 1).dev_type = none
    ∧ ((c3725_nm_remove_binding 3 bound_world 1).2.router.nm_bay 1).nm_driver = none :=
  ⟨by decide, (c3725_nm_remove_binding_contract 3 bound_world 1 (by decide)).2 (by decide)⟩

theorem enable_all_nio_trace (MAX : Nat) (w : World) (nm_bay : Nat) :
    ∃ rest, (c3725_nm_enable_all_nio MAX w nm_bay).2.trace = w.trace ++ rest := by
  unfold c3725_nm_enable_all_nio
  split
  · exact ⟨[], by simp⟩
  · split
    · exact ⟨_, rfl⟩
    · exact ⟨[], by simp⟩

/-- C10, as amended. For every bay in range, `c3725_nm_init` returns -1 without invoking the
`nm_init` of the driver, and leaves the whole state unchanged, when the bay is not bound (no
device type or no driver); in particular it never succeeds on an Empty bay.  A bound bay is
not rejected for being Active: whenever the bay is bound and the device name can be
allocated, whether `drv_info` is set or not, the `nm_init` of the driver is invoked. -/
theorem c3725_nm_init_preconditions (C3725_MAX_NM_BAYS : Nat) (malloc_ok : Nat → Bool)
    (w : World) (nm_bay : Nat) (h : nm_bay < C3725_MAX_NM_BAYS) :
    (((w.router.nm_bay nm_bay).dev_type = none ∨ (w.router.nm_bay nm_bay).nm_driver = none) →
      c3725_nm_init C3725_MAX_NM_BAYS malloc_ok w nm_bay = (-1, w))
    ∧ (∀ dev_type d, (w.router.nm_bay nm_bay).dev_type = some dev_type →
        (w.router.nm_bay nm_bay).nm_driver = some d →
        malloc_ok (dev_type.utf8ByteSize + 10) = true →
        ∃ rest, (c3725_nm_init C3725_MAX_NM_BAYS malloc_ok w nm_bay).2.trace
          = w.trace ++ Event.nm_init d.dev_type
              (nm_dev_name dev_type nm_bay (dev_type.utf8ByteSize + 10)) nm_bay :: rest) := by
  unfold c3725_nm_init
  rw [get_info_in_range w.router h]
  dsimp only
  constructor
  · intro h1
    split
    · rename_i dev_type d e1 e2
      rcases h1 with h1 | h1
      · rw [h1] at e1; exact absurd e1 (by simp)
      · rw [h1] at e2; exact absurd e2 (by simp)
    · rfl
  · intro dev_type d h1 h2 hm
    simp only [h1, h2, hm, Bool.true_eq_false, if_false]
    split_ifs
    · exact ⟨[], by simp [set_bay]⟩
    · obtain ⟨rest, hr⟩ := enable_all_nio_trace C3725_MAX_NM_BAYS
        (set_bay { w with trace := w.trace ++ [Event.nm_init d.dev_type
            (nm_dev_name dev_type nm_bay (dev_type.utf8ByteSize + 10)) nm_bay] } nm_bay
          { dev_name := some (nm_dev_name dev_type nm_bay (dev_type.utf8ByteSize + 10)),
            dev_type := some dev_type, nio_list := (w.router.nm_bay nm_bay).nio_list,
            nm_driver := some d,
            drv_info := match (d.nm_init
                (nm_dev_name dev_type nm_bay (dev_type.utf8ByteSize + 10)) nm_bay).2 with
              | some data => some data
              | none => (w.router.nm_bay nm_bay).drv_info }) nm_bay
      exact ⟨rest, by rw [hr]; simp [set_bay]⟩

/-- C10, witness: initializing the empty bay 1 of a fresh router fails and changes nothing. -/
theorem c3725_nm_init_preconditions_witness :
    (1 < 3 ∧ (fresh_world.router.nm_bay 1).dev_type = none)
    ∧ c3725_nm_init 3 (fun _ => true) fresh_world 1 = (-1, fresh_world) :=
  ⟨by decide,
    (c3725_nm_init_preconditions 3 (fun _ => true) fresh_world 1 (by decide)).1
      (Or.inl (by decide))⟩

/-- C10, counterexample to the rejection of an Active bay: bay 1 is bound and already
initialized (`drv_info` set); `c3725_nm_init` returns 0 and has invoked the `nm_init` of the
driver again (and then `nm_set_nio` for the binding of port 0). -/
theorem c3725_nm_init_active_bay :
    (active_world.router.nm_bay 1).drv_info = some 1
    ∧ (c3725_nm_init 3 (fun _ => true) active_world 1).1 = 0
    ∧ (c3725_nm_init 3 (fun _ => true) active_world 1).2.trace
      = [Event.nm_init "NM-1FE-TX" "NM-1FE-TX(1)" 1,
         Event.nm_set_nio "NM-1FE-TX" 1 0 "tapA"] := by
  decide

/-! ## NIO bindings: the cases of each routine -/

theorem find_nio_binding_in_range {MAX : Nat} (router : c3725_t) {nm_bay : Nat}
    (port_id : Nat) (h : nm_bay < MAX) :
    c3725_nm_find_nio_binding MAX router nm_bay port_id
      = (router.nm_bay nm_bay).nio_list.find? (fun nb => decide (nb.port_id = port_id)) := by
  unfold c3725_nm_find_nio_binding
  rw [get_info_in_range router h]

theorem add_nio_binding_out_of_range {MAX : Nat} (ok : Bool) (w : World) {nm_bay : Nat}
    (port_id : Nat) (name : String) (h : MAX ≤ nm_bay) :
    c3725_nm_add_nio_binding MAX ok w nm_bay port_id name = (-1, w) := by
  unfold c3725_nm_add_nio_binding
  rw [get_info_out_of_range w.router h]

theorem add_nio_binding_dup {MAX : Nat} (ok : Bool) (w : World) {nm_bay : Nat}
    (port_id : Nat) (name : String) (h : nm_bay < MAX)
    (hf : (c3725_nm_find_nio_binding MAX w.router nm_bay port_id).isSome = true) :
    c3725_nm_add_nio_binding MAX ok w nm_bay port_id name = (-1, w) := by
  unfold c3725_nm_add_nio_binding
  rw [get_info_in_range w.router h]
  exact if_pos hf

theorem add_nio_binding_not_found {MAX : Nat} (ok : Bool) (w : World) {nm_bay : Nat}
    (port_id : Nat) (name : String) (h : nm_bay < MAX)
    (hf : (c3725_nm_find_nio_binding MAX w.router nm_bay port_id).isSome = false)
    (ha : netio_acquire w.netio name = none) :
    c3725_nm_add_nio_binding MAX ok w nm_bay port_id name
      = (-1, { w with trace := w.trace ++ [Event.netio_acquire name] }) := by
  unfold c3725_nm_add_nio_binding
  rw [get_info_in_range w.router h]
  simp only [hf, ha, Bool.false_eq_true, if_false]

theorem add_nio_binding_no_memory {MAX : Nat} (w : World) {nm_bay : Nat}
    (port_id : Nat) (name : String) {netio1 : String → Option Int} (h : nm_bay < MAX)
    (hf : (c3725_nm_find_nio_binding MAX w.router nm_bay port_id).isSome = false)
    (ha : netio_acquire w.netio name = some netio1) :
    c3725_nm_add_nio_binding MAX false w nm_bay port_id name
      = (-1, { w with netio := netio_release netio1 name,
                      trace := (w.trace ++ [Event.netio_acquire name])
                        ++ [Event.netio_release name] }) := by
  unfold c3725_nm_add_nio_binding
  rw [get_info_in_range w.router h]
  simp only [hf, ha, Bool.false_eq_true, if_false, if_true]

theorem add_nio_binding_ok {MAX : Nat} (w : World) {nm_bay : Nat}
    (port_id : Nat) (name : String) {netio1 : String → Option Int} (h : nm_bay < MAX)
    (hf : (c3725_nm_find_nio_binding MAX w.router nm_bay port_id).isSome = false)
    (ha : netio_acquire w.netio name = some netio1) :
    c3725_nm_add_nio_binding MAX true w nm_bay port_id name
      = (0, set_bay { w with netio := netio1,
                             trace := w.trace ++ [Event.netio_acquire name] } nm_bay
          { w.router.nm_bay nm_bay with
            nio_list := ⟨name, port_id⟩ :: (w.router.nm_bay nm_bay).nio_list }) := by
  unfold c3725_nm_add_nio_binding
  rw [get_info_in_range w.router h]
  simp only [hf, ha, Bool.false_eq_true, if_false, Bool.true_eq_false]

theorem remove_nio_binding_out_of_range {MAX : Nat} (w : World) {nm_bay : Nat}
    (port_id : Nat) (h : MAX ≤ nm_bay) :
    c3725_nm_remove_nio_binding MAX w nm_bay port_id = (-1, w) := by
  unfold c3725_nm_remove_nio_binding
  rw [get_info_out_of_range w.router h]

theorem remove_nio_binding_none {MAX : Nat} (w : World) {nm_bay : Nat}
    (port_id : Nat) (h : nm_bay < MAX)
    (hf : c3725_nm_find_nio_binding MAX w.router nm_bay port_id = none) :
    c3725_nm_remove_nio_binding MAX w nm_bay port_id = (-1, w) := by
  unfold c3725_nm_remove_nio_binding
  rw [get_info_in_range w.router h]
  simp only [hf]

theorem remove_nio_binding_some {MAX : Nat} (w : World) {nm_bay : Nat}
    (port_id : Nat) {nb : c3725_nio_binding} (h : nm_bay < MAX)
    (hf : c3725_nm_find_nio_binding MAX w.router nm_bay port_id = some nb) :
    c3725_nm_remove_nio_binding MAX w nm_bay port_id
      = (0, set_bay { w with
            netio := netio_release w.netio nb.nio,
            trace := (match (w.router.nm_bay nm_bay).nm_driver with
                | some d => w.trace ++ [Event.nm_unset_nio d.dev_type nm_bay port_id]
                | none => w.trace) ++ [Event.netio_release nb.nio] } nm_bay
          { w.router.nm_bay nm_bay with
            nio_list := (w.router.nm_bay nm_bay).nio_list.eraseP
              (fun b => decide (b.port_id = port_id)) }) := by
  unfold c3725_nm_remove_nio_binding
  rw [get_info_in_range w.router h]
  simp only [hf]

/-! ## Activation and shutdown: the cases of each routine -/

theorem nm_init_bound {MAX : Nat} (malloc_ok : Nat → Bool) (w : World) {nm_bay : Nat}
    {dev_type : String} {d : c3725_nm_driver} (h : nm_bay < MAX)
    (h1 : (w.router.nm_bay nm_bay).dev_type = some dev_type)
    (h2 : (w.router.nm_bay nm_bay).nm_driver = some d)
    (hm : malloc_ok (dev_type.utf8ByteSize + 10) = true) :
    c3725_nm_init MAX malloc_ok w nm_bay
      = if (d.nm_init (nm_dev_name dev_type nm_bay (dev_type.utf8ByteSize + 10)) nm_bay).1 = 1
        then (-1, after_driver_init w nm_bay dev_type d)
        else (0, (c3725_nm_enable_all_nio MAX (after_driver_init w nm_bay dev_type d)
          nm_bay).2) := by
  unfold c3725_nm_init after_driver_init
  rw [get_info_in_range w.router h]
  simp only [h1, h2, hm, Bool.true_eq_false, if_false]

theorem enable_all_nio_active {MAX : Nat} (w : World) {nm_bay : Nat} {d : c3725_nm_driver}
    {data : Nat} (h : nm_bay < MAX) (h2 : (w.router.nm_bay nm_bay).nm_driver = some d)
    (h3 : (w.router.nm_bay nm_bay).drv_info = some data) :
    c3725_nm_enable_all_nio MAX w nm_bay
      = (0, { w with trace := w.trace
          ++ enable_all_nio_loop d nm_bay (w.router.nm_bay nm_bay).nio_list }) := by
  unfold c3725_nm_enable_all_nio
  rw [get_info_in_range w.router h]
  simp only [h2, h3]

theorem enable_all_nio_inactive {MAX : Nat} (w : World) {nm_bay : Nat}
    (h3 : (w.router.nm_bay nm_bay).drv_info = none) :
    c3725_nm_enable_all_nio MAX w nm_bay = (-1, w) := by
  unfold c3725_nm_enable_all_nio
  split
  · rfl
  · rename_i bay hb
    unfold c3725_nm_get_info at hb
    split at hb
    · exact absurd hb (by simp)
    · have hb2 : w.router.nm_bay nm_bay = bay := by simpa using hb
      rw [← hb2, h3]
      split
      · rename_i e1 e2
        exact absurd e2 (by simp)
      · rfl

theorem disable_all_nio_active {MAX : Nat} (w : World) {nm_bay : Nat} {d : c3725_nm_driver}
    {data : Nat} (h : nm_bay < MAX) (h2 : (w.router.nm_bay nm_bay).nm_driver = some d)
    (h3 : (w.router.nm_bay nm_bay).drv_info = some data) :
    c3725_nm_disable_all_nio MAX w nm_bay
      = (0, { w with trace := (w.trace ++ (w.router.nm_bay nm_bay).nio_list.map
          (fun nb => Event.nm_unset_nio d.dev_type nm_bay nb.port_id)) }) := by
  unfold c3725_nm_disable_all_nio
  rw [get_info_in_range w.router h]
  simp only [h2, h3]

theorem disable_all_nio_inactive {MAX : Nat} (w : World) {nm_bay : Nat}
    (h3 : (w.router.nm_bay nm_bay).drv_info = none) :
    c3725_nm_disable_all_nio MAX w nm_bay = (-1, w) := by
  unfold c3725_nm_disable_all_nio
  split
  · rfl
  · rename_i bay hb
    unfold c3725_nm_get_info at hb
    split at hb
    · exact absurd hb (by simp)
    · have hb2 : w.router.nm_bay nm_bay = bay := by simpa using hb
      rw [← hb2, h3]
      split
      · rename_i e1 e2
        exact absurd e2 (by simp)
      · rfl

theorem shutdown_unbound {MAX : Nat} (w : World) {nm_bay : Nat}
    (hu : (w.router.nm_bay nm_bay).dev_type = none ∨ (w.router.nm_bay nm_bay).nm_driver = none) :
    c3725_nm_shutdown MAX w nm_bay = (-1, w) := by
  unfold c3725_nm_shutdown
  split
  · rfl
  · rename_i bay hb
    unfold c3725_nm_get_info at hb
    split at hb
    · exact absurd hb (by simp)
    · have hb2 : w.router.nm_bay nm_bay = bay := by simpa using hb
      rw [← hb2]
      split
      · rename_i dt d e1 e2
        rcases hu with hu | hu
        · rw [hu] at e1; exact absurd e1 (by simp)
        · rw [hu] at e2; exact absurd e2 (by simp)
      · rfl

theorem shutdown_inactive {MAX : Nat} (w : World) {nm_bay : Nat} {dev_type : String}
    {d : c3725_nm_driver} (h : nm_bay < MAX)
    (h1 : (w.router.nm_bay nm_bay).dev_type = some dev_type)
    (h2 : (w.router.nm_bay nm_bay).nm_driver = some d)
    (h3 : (w.router.nm_bay nm_bay).drv_info = none) :
    c3725_nm_shutdown MAX w nm_bay
      = (0, set_bay w nm_bay
          { w.router.nm_bay nm_bay with dev_name := none, drv_info := none }) := by
  unfold c3725_nm_shutdown
  rw [get_info_in_range w.router h, disable_all_nio_inactive w h3]
  simp only [h1, h2, h3]

theorem shutdown_active {MAX : Nat} (w : World) {nm_bay : Nat} {dev_type : String}
    {d : c3725_nm_driver} {data : Nat} (h : nm_bay < MAX)
    (h1 : (w.router.nm_bay nm_bay).dev_type = some dev_type)
    (h2 : (w.router.nm_bay nm_bay).nm_driver = some d)
    (h3 : (w.router.nm_bay nm_bay).drv_info = some data) :
    c3725_nm_shutdown MAX w nm_bay
      = if d.nm_shutdown nm_bay = -1 then
          (-1, { w with trace := (w.trace ++ (w.router.nm_bay nm_bay).nio_list.map
              (fun nb => Event.nm_unset_nio d.dev_type nm_bay nb.port_id))
            ++ [Event.nm_shutdown d.dev_type nm_bay] })
        else
          (0, set_bay { w with trace := (w.trace ++ (w.router.nm_bay nm_bay).nio_list.map
              (fun nb => Event.nm_unset_nio d.dev_type nm_bay nb.port_id))
            ++ [Event.nm_shutdown d.dev_type nm_bay] } nm_bay
            { w.router.nm_bay nm_bay with dev_name := none, drv_info := none }) := by
  unfold c3725_nm_shutdown
  rw [get_info_in_range w.router h, disable_all_nio_active w h h2 h3]
  simp only [h1, h2, h3]

/-! ## Claims on activation and shutdown -/

/-- C11, the code at the failing input. Bay 1 is bound and not initialized, and the `nm_init`
of its driver reports the error status -1 (recording no driver data): `c3725_nm_init` returns
0, not -1, because it tests the status against 1.  The other parts of the claim hold there:
no `nm_set_nio` is invoked and the bay keeps its device type and driver, with `drv_info`
unset. -/
theorem c3725_nm_init_driver_failure :
    (failing_init_world.router.nm_bay 1).dev_type = some "NM-1FE-TX"
    ∧ (failing_init_world.router.nm_bay 1).drv_info = none
    ∧ ((failing_init_driver "NM-1FE-TX").nm_init "NM-1FE-TX(1)" 1).1 = -1
    ∧ (c3725_nm_init 3 (fun _ => true) failing_init_world 1).1 = 0
    ∧ (c3725_nm_init 3 (fun _ => true) failing_init_world 1).2.trace
        = [Event.nm_init "NM-1FE-TX" "NM-1FE-TX(1)" 1]
    ∧ ((c3725_nm_init 3 (fun _ => true) failing_init_world 1).2.router.nm_bay 1).dev_type
        = some "NM-1FE-TX"
    ∧ ((c3725_nm_init 3 (fun _ => true) failing_init_world 1).2.router.nm_bay 1).drv_info
        = none := by
  decide

/-- C12 (activate call order). For every bay in range that is bound and not yet initialized,
holding the NIO bindings b1..bn, when the device name can be allocated and the `nm_init` of
the driver succeeds (status 0) and records its driver data, `c3725_nm_init` returns 0 and the
calls it makes are exactly: `nm_init`, then one `nm_set_nio` with (port_id, NIO) for each
binding, in list order; afterwards `drv_info` is the recorded data. -/
theorem c3725_nm_init_call_order (C3725_MAX_NM_BAYS : Nat) (malloc_ok : Nat → Bool)
    (w : World) (nm_bay : Nat) (dev_type : String) (d : c3725_nm_driver) (data : Nat)
    (h : nm_bay < C3725_MAX_NM_BAYS)
    (h1 : (w.router.nm_bay nm_bay).dev_type = some dev_type)
    (h2 : (w.router.nm_bay nm_bay).nm_driver = some d)
    (_h3 : (w.router.nm_bay nm_bay).drv_info = none)
    (hm : malloc_ok (dev_type.utf8ByteSize + 10) = true)
    (hi : d.nm_init (nm_dev_name dev_type nm_bay (dev_type.utf8ByteSize + 10)) nm_bay
      = (0, some data)) :
    (c3725_nm_init C3725_MAX_NM_BAYS malloc_ok w nm_bay).1 = 0
    ∧ (c3725_nm_init C3725_MAX_NM_BAYS malloc_ok w nm_bay).2.trace
      = w.trace
        ++ Event.nm_init d.dev_type
            (nm_dev_name dev_type nm_bay (dev_type.utf8ByteSize + 10)) nm_bay
          :: (w.router.nm_bay nm_bay).nio_list.map
              (fun nb => Event.nm_set_nio d.dev_type nm_bay nb.port_id nb.nio)
    ∧ ((c3725_nm_init C3725_MAX_NM_BAYS malloc_ok w nm_bay).2.router.nm_bay nm_bay).drv_info
      = some data
    ∧ ((c3725_nm_init C3725_MAX_NM_BAYS malloc_ok w nm_bay).2.router.nm_bay nm_bay).nio_list
      = (w.router.nm_bay nm_bay).nio_list := by
  rw [nm_init_bound malloc_ok w h h1 h2 hm, hi]
  have hd : ((after_driver_init w nm_bay dev_type d).router.nm_bay nm_bay).drv_info
      = some data := by
    simp [after_driver_init, set_bay, hi]
  have hdrv : ((after_driver_init w nm_bay dev_type d).router.nm_bay nm_bay).nm_driver
      = some d := by
    simp [after_driver_init, set_bay, h2]
  rw [if_neg (by simp), enable_all_nio_active _ h hdrv hd]
  refine ⟨rfl, ?_, hd, ?_⟩
  · simp [after_driver_init, set_bay, enable_all_nio_loop]
  · simp [after_driver_init, set_bay]

/-- C12, witness: bay 1 bound, one binding port 0 -> tapA: `nm_init` then
`nm_set_nio(0, tapA)`. -/
theorem c3725_nm_init_call_order_witness :
    (c3725_nm_init 3 (fun _ => true) bound_world 1).1 = 0
    ∧ (c3725_nm_init 3 (fun _ => true) bound_world 1).2.trace
      = [Event.nm_init "NM-1FE-TX" "NM-1FE-TX(1)" 1,
         Event.nm_set_nio "NM-1FE-TX" 1 0 "tapA"] :=
  have t := c3725_nm_init_call_order 3 (fun _ => true) bound_world 1 "NM-1FE-TX"
    (test_driver "NM-1FE-TX") 1 (by decide) (by decide) rfl (by decide) rfl rfl
  ⟨t.1, t.2.1⟩

/-- C13, as amended. For every bay in range, `c3725_nm_shutdown` returns -1 and changes
nothing when the bay is not bound (no device type or no driver).  A bay that is Bound but not
Active (`drv_info` unset) is not rejected: the call returns 0 without invoking any driver
callback, clears `dev_name` and leaves device type, driver and NIO bindings as they are. -/
theorem c3725_nm_shutdown_preconditions (C3725_MAX_NM_BAYS : Nat) (w : World) (nm_bay : Nat)
    (h : nm_bay < C3725_MAX_NM_BAYS) :
    (((w.router.nm_bay nm_bay).dev_type = none ∨ (w.router.nm_bay nm_bay).nm_driver = none) →
      c3725_nm_shutdown C3725_MAX_NM_BAYS w nm_bay = (-1, w))
    ∧ (∀ dev_type d, (w.router.nm_bay nm_bay).dev_type = some dev_type →
        (w.router.nm_bay nm_bay).nm_driver = some d →
        (w.router.nm_bay nm_bay).drv_info = none →
        (c3725_nm_shutdown C3725_MAX_NM_BAYS w nm_bay).1 = 0
        ∧ (c3725_nm_shutdown C3725_MAX_NM_BAYS w nm_bay).2.trace = w.trace
        ∧ (c3725_nm_shutdown C3725_MAX_NM_BAYS w nm_bay).2.router.nm_bay nm_bay
          = { w.router.nm_bay nm_bay with dev_name := none, drv_info := none }) := by
  refine ⟨fun hu => shutdown_unbound w hu, fun dev_type d h1 h2 h3 => ?_⟩
  rw [shutdown_inactive w h h1 h2 h3]
  exact ⟨rfl, rfl, set_bay_same _ _ _⟩

/-- C13, witness: shutting down the empty bay 1 of a fresh router fails and changes nothing. -/
theorem c3725_nm_shutdown_preconditions_witness :
    (1 < 3 ∧ (fresh_world.router.nm_bay 1).dev_type = none)
    ∧ c3725_nm_shutdown 3 fresh_world 1 = (-1, fresh_world) :=
  ⟨by decide,
    (c3725_nm_shutdown_preconditions 3 fresh_world 1 (by decide)).1 (Or.inl (by decide))⟩

/-- C13, counterexample to the rejection of a Bound bay: bay 1 is bound and not initialized
(`drv_info` unset); `c3725_nm_shutdown` returns 0, not -1, and makes no driver call. -/
theorem c3725_nm_shutdown_bound_bay :
    (bound_world.router.nm_bay 1).dev_type = some "NM-1FE-TX"
    ∧ (bound_world.router.nm_bay 1).drv_info = none
    ∧ (c3725_nm_shutdown 3 bound_world 1).1 = 0
    ∧ (c3725_nm_shutdown 3 bound_world 1).2.trace = [] := by
  decide

/-- C14, as amended. For every bay in range that is Active (bound, `drv_info` set),
`c3725_nm_shutdown` first invokes `nm_unset_nio` for every binding and then the `nm_shutdown`
of the driver.  When that reports a status other than -1, the call returns 0 and the bay is
Bound with `drv_info` (and `dev_name`) cleared, device type, driver and NIO bindings kept.
When it reports -1, the call returns -1 and the router is unchanged: the bay stays Active,
`drv_info` still set. -/
theorem c3725_nm_shutdown_active (C3725_MAX_NM_BAYS : Nat) (w : World) (nm_bay : Nat)
    (dev_type : String) (d : c3725_nm_driver) (data : Nat)
    (h : nm_bay < C3725_MAX_NM_BAYS)
    (h1 : (w.router.nm_bay nm_bay).dev_type = some dev_type)
    (h2 : (w.router.nm_bay nm_bay).nm_driver = some d)
    (h3 : (w.router.nm_bay nm_bay).drv_info = some data) :
    (c3725_nm_shutdown C3725_MAX_NM_BAYS w nm_bay).2.trace
      = (w.trace ++ (w.router.nm_bay nm_bay).nio_list.map
          (fun nb => Event.nm_unset_nio d.dev_type nm_bay nb.port_id))
        ++ [Event.nm_shutdown d.dev_type nm_bay]
    ∧ (d.nm_shutdown nm_bay ≠ -1 →
        (c3725_nm_shutdown C3725_MAX_NM_BAYS w nm_bay).1 = 0
        ∧ (c3725_nm_shutdown C3725_MAX_NM_BAYS w nm_bay).2.router.nm_bay nm_bay
          = { w.router.nm_bay nm_bay with dev_name := none, drv_info := none })
    ∧ (d.nm_shutdown nm_bay = -1 →
        (c3725_nm_shutdown C3725_MAX_NM_BAYS w nm_bay).1 = -1
        ∧ (c3725_nm_shutdown C3725_MAX_NM_BAYS w nm_bay).2.router = w.router) := by
  rw [shutdown_active w h h1 h2 h3]
  by_cases hs : d.nm_shutdown nm_bay = -1
  · rw [if_pos hs]
    exact ⟨rfl, fun hn => absurd hs hn, fun _ => ⟨rfl, rfl⟩⟩
  · rw [if_neg hs]
    exact ⟨rfl, fun _ => ⟨rfl, set_bay_same _ _ _⟩, fun he => absurd he hs⟩

/-- C14, witness: bay 1 Active with a driver whose `nm_shutdown` reports 0: the bay becomes
Bound, `drv_info` cleared, the binding of port 0 kept. -/
theorem c3725_nm_shutdown_active_witness :
    (c3725_nm_shutdown 3 active_world 1).1 = 0
    ∧ (c3725_nm_shutdown 3 active_world 1).2.router.nm_bay 1
      = { active_world.router.nm_bay 1 with dev_name := none, drv_info := none } :=
  (c3725_nm_shutdown_active 3 active_world 1 "NM-1FE-TX" (test_driver "NM-1FE-TX") 1
    (by decide) rfl rfl rfl).2.1 (by decide)

/-- C14, counterexample to the best-effort teardown: bay 1 is Active and the `nm_shutdown`
of its driver reports -1; `c3725_nm_shutdown` returns -1 and the bay is still Active
(`drv_info` set), although `nm_unset_nio` was already invoked for its binding. -/
theorem c3725_nm_shutdown_driver_failure :
    (failing_shutdown_world.router.nm_bay 1).drv_info = some 1
    ∧ (c3725_nm_shutdown 3 failing_shutdown_world 1).1 = -1
    ∧ ((c3725_nm_shutdown 3 failing_shutdown_world 1).2.router.nm_bay 1).drv_info = some 1
    ∧ (c3725_nm_shutdown 3 failing_shutdown_world 1).2.trace
      = [Event.nm_unset_nio "NM-1FE-TX" 1 0, Event.nm_shutdown "NM-1FE-TX" 1] := by
  decide

/-! ## Claims on the NIO bindings -/

/-- A successful `c3725_nm_add_nio_binding` went through every check. -/
theorem add_nio_binding_success {MAX : Nat} {ok : Bool} {w : World} {nm_bay port_id : Nat}
    {name : String} (hs : (c3725_nm_add_nio_binding MAX ok w nm_bay port_id name).1 = 0) :
    nm_bay < MAX ∧ (c3725_nm_find_nio_binding MAX w.router nm_bay port_id).isSome = false
    ∧ ok = true ∧ ∃ netio1, netio_acquire w.netio name = some netio1 := by
  by_cases h : nm_bay < MAX
  · cases hf : (c3725_nm_find_nio_binding MAX w.router nm_bay port_id).isSome with
    | true =>
      rw [add_nio_binding_dup ok w port_id name h hf] at hs
      exact absurd hs (fail_ne_zero w)
    | false =>
      cases ha : netio_acquire w.netio name with
      | none =>
        rw [add_nio_binding_not_found ok w port_id name h hf ha] at hs
        exact absurd hs (fail_ne_zero _)
      | some netio1 =>
        cases ok with
        | false =>
          rw [add_nio_binding_no_memory w port_id name h hf ha] at hs
          exact absurd hs (fail_ne_zero _)
        | true => exact ⟨h, rfl, rfl, netio1, rfl⟩
  · rw [add_nio_binding_out_of_range ok w port_id name (by omega)] at hs
    exact absurd hs (fail_ne_zero w)

/-- C15 (attach_backend failure is atomic). For every bay in range,
`c3725_nm_add_nio_binding` returns -1 when a binding already exists for `port_id` or when
the named NIO cannot be acquired from the registry, and in both cases the router is
unchanged (so the binding list of the bay, and the binding found for that port) and no
reference count of the registry has changed. -/
theorem c3725_nm_add_nio_binding_failure_atomic (C3725_MAX_NM_BAYS : Nat)
    (nb_malloc_ok : Bool) (w : World) (nm_bay port_id : Nat) (nio_name : String)
    (h : nm_bay < C3725_MAX_NM_BAYS)
    (hf : (c3725_nm_find_nio_binding C3725_MAX_NM_BAYS w.router nm_bay port_id).isSome = true
      ∨ netio_acquire w.netio nio_name = none) :
    (c3725_nm_add_nio_binding C3725_MAX_NM_BAYS nb_malloc_ok w nm_bay port_id nio_name).1 = -1
    ∧ (c3725_nm_add_nio_binding C3725_MAX_NM_BAYS nb_malloc_ok w nm_bay port_id
        nio_name).2.router = w.router
    ∧ ((c3725_nm_add_nio_binding C3725_MAX_NM_BAYS nb_malloc_ok w nm_bay port_id
        nio_name).2.router.nm_bay nm_bay).nio_list = (w.router.nm_bay nm_bay).nio_list
    ∧ c3725_nm_find_nio_binding C3725_MAX_NM_BAYS
        (c3725_nm_add_nio_binding C3725_MAX_NM_BAYS nb_malloc_ok w nm_bay port_id
          nio_name).2.router nm_bay port_id
      = c3725_nm_find_nio_binding C3725_MAX_NM_BAYS w.router nm_bay port_id
    ∧ (c3725_nm_add_nio_binding C3725_MAX_NM_BAYS nb_malloc_ok w nm_bay port_id
        nio_name).2.netio = w.netio := by
  cases hd : (c3725_nm_find_nio_binding C3725_MAX_NM_BAYS w.router nm_bay port_id).isSome with
  | true =>
    rw [add_nio_binding_dup nb_malloc_ok w port_id nio_name h hd]
    exact ⟨rfl, rfl, rfl, rfl, rfl⟩
  | false =>
    rcases hf with hf | hf
    · rw [hd] at hf
      exact absurd hf (by decide)
    · rw [add_nio_binding_not_found nb_malloc_ok w port_id nio_name h hd hf]
      exact ⟨rfl, rfl, rfl, rfl, rfl⟩

/-- C15, witness: a second binding for port 0 of bay 1, and a binding to the unknown NIO
"tapB" for port 1, are both refused. -/
theorem c3725_nm_add_nio_binding_failure_atomic_witness :
    ((c3725_nm_add_nio_binding 3 true bound_world 1 0 "tapA").1 = -1
      ∧ ((c3725_nm_add_nio_binding 3 true bound_world 1 0 "tapA").2.router.nm_bay 1).nio_list
        = [⟨"tapA", 0⟩])
    ∧ ((c3725_nm_add_nio_binding 3 true bound_world 1 1 "tapB").1 = -1
      ∧ (c3725_nm_add_nio_binding 3 true bound_world 1 1 "tapB").2.netio = bound_world.netio) :=
  have t1 := c3725_nm_add_nio_binding_failure_atomic 3 true bound_world 1 0 "tapA"
    (by decide) (Or.inl (by decide))
  have t2 := c3725_nm_add_nio_binding_failure_atomic 3 true bound_world 1 1 "tapB"
    (by decide) (Or.inr rfl)
  ⟨⟨t1.1, t1.2.2.1⟩, ⟨t2.1, t2.2.2.2.2⟩⟩

/-- C16, as amended. For every Active bay (driver bound and `drv_info` set) and every port
without a binding, a successful `c3725_nm_add_nio_binding` stores the binding (at the head of
the list) and makes no driver call: its only call is `netio_acquire`.  The `nm_set_nio` of
the driver is invoked for that port, with the NIO just bound, by a following
`c3725_nm_enable_nio`. -/
theorem c3725_nm_add_nio_binding_no_hot_attach (C3725_MAX_NM_BAYS : Nat)
    (nb_malloc_ok : Bool) (w : World) (nm_bay port_id : Nat) (nio_name : String)
    (d : c3725_nm_driver) (data : Nat)
    (h2 : (w.router.nm_bay nm_bay).nm_driver = some d)
    (h3 : (w.router.nm_bay nm_bay).drv_info = some data)
    (hs : (c3725_nm_add_nio_binding C3725_MAX_NM_BAYS nb_malloc_ok w nm_bay port_id
      nio_name).1 = 0) :
    ((c3725_nm_add_nio_binding C3725_MAX_NM_BAYS nb_malloc_ok w nm_bay port_id
        nio_name).2.router.nm_bay nm_bay).nio_list
      = ⟨nio_name, port_id⟩ :: (w.router.nm_bay nm_bay).nio_list
    ∧ (c3725_nm_add_nio_binding C3725_MAX_NM_BAYS nb_malloc_ok w nm_bay port_id
        nio_name).2.trace = w.trace ++ [Event.netio_acquire nio_name]
    ∧ c3725_nm_enable_nio C3725_MAX_NM_BAYS
        (c3725_nm_add_nio_binding C3725_MAX_NM_BAYS nb_malloc_ok w nm_bay port_id
          nio_name).2 nm_bay port_id
      = (d.nm_set_nio nm_bay port_id nio_name,
          { (c3725_nm_add_nio_binding C3725_MAX_NM_BAYS nb_malloc_ok w nm_bay port_id
              nio_name).2 with
            trace := (w.trace ++ [Event.netio_acquire nio_name])
              ++ [Event.nm_set_nio d.dev_type nm_bay port_id nio_name] }) := by
  obtain ⟨h, hf, hok, netio1, ha⟩ := add_nio_binding_success hs
  subst hok
  rw [add_nio_binding_ok w port_id nio_name h hf ha]
  refine ⟨by simp [set_bay], rfl, ?_⟩
  unfold c3725_nm_enable_nio
  rw [find_nio_binding_in_range _ port_id h, get_info_in_range _ h]
  simp [set_bay, h2, h3]

/-- C16, witness: on the Active bay 1, binding port 1 to "tapA" succeeds, and the
`nm_set_nio` call comes with the following `c3725_nm_enable_nio`. -/
theorem c3725_nm_add_nio_binding_no_hot_attach_witness :
    (c3725_nm_add_nio_binding 3 true active_world 1 1 "tapA").1 = 0
    ∧ (c3725_nm_add_nio_binding 3 true active_world 1 1 "tapA").2.trace
      = active_world.trace ++ [Event.netio_acquire "tapA"]
    ∧ (c3725_nm_enable_nio 3 (c3725_nm_add_nio_binding 3 true active_world 1 1 "tapA").2
        1 1).2.trace
      = [Event.netio_acquire "tapA", Event.nm_set_nio "NM-1FE-TX" 1 1 "tapA"] :=
  have t := c3725_nm_add_nio_binding_no_hot_attach 3 true active_world 1 1 "tapA"
    (test_driver "NM-1FE-TX") 1 rfl rfl (by decide)
  ⟨by decide, t.2.1, by rw [t.2.2]; rfl⟩

/-- C16, counterexample to the hot attach: bay 1 is Active and port 1 has no binding;
`c3725_nm_add_nio_binding` succeeds and stores the binding, but the only call it makes is
`netio_acquire`: no `nm_set_nio` is invoked. -/
theorem c3725_nm_add_nio_binding_active_bay :
    (active_world.router.nm_bay 1).drv_info = some 1
    ∧ c3725_nm_find_nio_binding 3 active_world.router 1 1 = none
    ∧ (c3725_nm_add_nio_binding 3 true active_world 1 1 "tapA").1 = 0
    ∧ ((c3725_nm_add_nio_binding 3 true active_world 1 1 "tapA").2.router.nm_bay 1).nio_list
      = [⟨"tapA", 1⟩, ⟨"tapA", 0⟩]
    ∧ (c3725_nm_add_nio_binding 3 true active_world 1 1 "tapA").2.trace
      = [Event.netio_acquire "tapA"] := by
  decide

/-- The first element found by `find?` splits the list; `eraseP` removes exactly it. -/
theorem find?_decompose {α : Type} (p : α → Bool) :
    ∀ (l : List α) (a : α), l.find? p = some a →
      ∃ l1 l2, l = l1 ++ a :: l2 ∧ (∀ b ∈ l1, p b = false) ∧ l.eraseP p = l1 ++ l2
  | [], a, h => by simp at h
  | x :: xs, a, h => by
    cases hx : p x with
    | true =>
      have hxa : x = a := by simpa [List.find?_cons, hx] using h
      subst hxa
      exact ⟨[], xs, rfl, by simp, by simp [List.eraseP_cons, hx]⟩
    | false =>
      have h2 : xs.find? p = some a := by simpa [List.find?_cons, hx] using h
      obtain ⟨l1, l2, e1, e2, e3⟩ := find?_decompose p xs a h2
      refine ⟨x :: l1, l2, by rw [e1]; rfl, ?_, by simp [List.eraseP_cons, hx, e3]⟩
      intro b hb
      rcases List.mem_cons.mp hb with hb | hb
      · rw [hb]; exact hx
      · exact e2 b hb

/-- C17 (detach_backend contract). For every bay in range, `c3725_nm_remove_nio_binding`
returns -1 and changes nothing when no binding exists for `port_id`; otherwise it returns 0
whatever the `nm_unset_nio` of the driver reports (the driver is arbitrary), the binding
found for `port_id` is taken out of the list and every other binding is still present, with
the same port id and NIO, in the same relative order; when no two bindings of the bay share
a port id, no binding is found for `port_id` afterwards. -/
theorem c3725_nm_remove_nio_binding_contract (C3725_MAX_NM_BAYS : Nat) (w : World)
    (nm_bay port_id : Nat) (h : nm_bay < C3725_MAX_NM_BAYS) :
    (c3725_nm_find_nio_binding C3725_MAX_NM_BAYS w.router nm_bay port_id = none →
      c3725_nm_remove_nio_binding C3725_MAX_NM_BAYS w nm_bay port_id = (-1, w))
    ∧ (∀ nb, c3725_nm_find_nio_binding C3725_MAX_NM_BAYS w.router nm_bay port_id = some nb →
        (c3725_nm_remove_nio_binding C3725_MAX_NM_BAYS w nm_bay port_id).1 = 0
        ∧ nb.port_id = port_id
        ∧ ∃ l1 l2, (w.router.nm_bay nm_bay).nio_list = l1 ++ nb :: l2
            ∧ (∀ b ∈ l1, b.port_id ≠ port_id)
            ∧ ((c3725_nm_remove_nio_binding C3725_MAX_NM_BAYS w nm_bay
                port_id).2.router.nm_bay nm_bay).nio_list = l1 ++ l2)
    ∧ (((w.router.nm_bay nm_bay).nio_list.map (fun b => b.port_id)).Nodup →
        c3725_nm_find_nio_binding C3725_MAX_NM_BAYS
          (c3725_nm_remove_nio_binding C3725_MAX_NM_BAYS w nm_bay port_id).2.router
          nm_bay port_id = none) := by
  have key : ∀ nb, c3725_nm_find_nio_binding C3725_MAX_NM_BAYS w.router nm_bay port_id
      = some nb →
      (c3725_nm_remove_nio_binding C3725_MAX_NM_BAYS w nm_bay port_id).1 = 0
      ∧ nb.port_id = port_id
      ∧ ∃ l1 l2, (w.router.nm_bay nm_bay).nio_list = l1 ++ nb :: l2
          ∧ (∀ b ∈ l1, b.port_id ≠ port_id)
          ∧ ((c3725_nm_remove_nio_binding C3725_MAX_NM_BAYS w nm_bay
              port_id).2.router.nm_bay nm_bay).nio_list = l1 ++ l2 := by
    intro nb hf
    rw [remove_nio_binding_some w port_id h hf]
    rw [find_nio_binding_in_range w.router port_id h] at hf
    obtain ⟨l1, l2, e1, e2, e3⟩ := find?_decompose _ _ nb hf
    refine ⟨rfl, by simpa using List.find?_some hf, l1, l2, e1, ?_, ?_⟩
    · intro b hb
      simpa using e2 b hb
    · rw [set_bay_same]
      exact e3
  refine ⟨fun hf => remove_nio_binding_none w port_id h hf, key, ?_⟩
  intro hnd
  cases hf : c3725_nm_find_nio_binding C3725_MAX_NM_BAYS w.router nm_bay port_id with
  | none =>
    rw [remove_nio_binding_none w port_id h hf]
    exact hf
  | some nb =>
    obtain ⟨_, hp, l1, l2, e1, e2, e3⟩ := key nb hf
    rw [find_nio_binding_in_range _ port_id h, e3, List.find?_eq_none]
    rw [e1] at hnd
    intro x hx
    rcases List.mem_append.mp hx with hx | hx
    · simpa using e2 x hx
    · have hnd2 : ((nb :: l2).map (fun b => b.port_id)).Nodup := by
        rw [List.map_append] at hnd
        exact (List.nodup_append.mp hnd).2.1
      rw [List.map_cons, List.nodup_cons] at hnd2
      have hne : x.port_id ≠ nb.port_id := by
        intro he
        exact hnd2.1 (he ▸ List.mem_map_of_mem (fun b => b.port_id) hx)
      rw [hp] at hne
      simpa using hne

/-- C17, witness: bay 1 with the single binding of port 0, and a driver whose `nm_unset_nio`
reports -1: the removal returns 0 and the list is empty. -/
theorem c3725_nm_remove_nio_binding_contract_witness :
    (failing_shutdown_driver "NM-1FE-TX").nm_unset_nio 1 0 = -1
    ∧ (c3725_nm_remove_nio_binding 3 failing_shutdown_world 1 0).1 = 0
    ∧ c3725_nm_find_nio_binding 3
        (c3725_nm_remove_nio_binding 3 failing_shutdown_world 1 0).2.router 1 0 = none :=
  have t := c3725_nm_remove_nio_binding_contract 3 failing_shutdown_world 1 0 (by decide)
  ⟨by decide, (t.2.1 ⟨"tapA", 0⟩ (by decide)).1, t.2.2 (by decide)⟩

theorem remove_all_nio_bindings_in_range {MAX : Nat} (w : World) {nm_bay : Nat}
    (h : nm_bay < MAX) :
    c3725_nm_remove_all_nio_bindings MAX w nm_bay
      = (0, set_bay { w with
            netio := (remove_all_nio_loop (w.router.nm_bay nm_bay).nm_driver nm_bay
              (w.router.nm_bay nm_bay).nio_list w.netio w.trace).1,
            trace := (remove_all_nio_loop (w.router.nm_bay nm_bay).nm_driver nm_bay
              (w.router.nm_bay nm_bay).nio_list w.netio w.trace).2 } nm_bay
          { w.router.nm_bay nm_bay with nio_list := [] }) := by
  unfold c3725_nm_remove_all_nio_bindings
  rw [get_info_in_range w.router h]

theorem netio_release_apply (netio : String → Option Int) (x n : String) :
    netio_release netio x n = (netio n).map (fun c => c - if n = x then 1 else 0) := by
  unfold netio_release
  cases hx : netio x with
  | none =>
    by_cases hn : n = x
    · subst hn
      simp [hx]
    · cases hn2 : netio n <;> simp [hn, hn2]
  | some c =>
    by_cases hn : n = x
    · subst hn
      simp [hx]
    · cases hn2 : netio n <;> simp [hn, hn2]

theorem netio_acquire_some {netio netio1 : String → Option Int} {x : String}
    (h : netio_acquire netio x = some netio1) :
    ∃ c, netio x = some c ∧ ∀ n, netio1 n = if n = x then some (c + 1) else netio n := by
  unfold netio_acquire at h
  cases hx : netio x with
  | none => rw [hx] at h; exact absurd h (by simp)
  | some c =>
    rw [hx] at h
    have h1 : (fun n => if n = x then some (c + 1) else netio n) = netio1 := by simpa using h
    exact ⟨c, rfl, fun n => by rw [← h1]⟩

/-- Reference counts after the loop of `c3725_nm_remove_all_nio_bindings`: each count is
lowered by the number of bindings that refer to that NIO. -/
theorem remove_all_nio_loop_netio (drv : Option c3725_nm_driver) (nm_bay : Nat) (n : String) :
    ∀ (l : List c3725_nio_binding) (netio : String → Option Int) (trace : List Event),
      (remove_all_nio_loop drv nm_bay l netio trace).1 n
        = (netio n).map
            (fun c : Int => c - ((l.countP (fun nb => decide (nb.nio = n)) : Nat) : Int))
  | [], netio, trace => by
    show netio n = _
    cases netio n <;> simp
  | nb :: next, netio, trace => by
    show (remove_all_nio_loop drv nm_bay next (netio_release netio nb.nio) _).1 n = _
    rw [remove_all_nio_loop_netio drv nm_bay n next, netio_release_apply, List.countP_cons]
    cases netio n with
    | none => rfl
    | some c =>
      by_cases hn : n = nb.nio
      · subst hn
        simp only [Option.map_some', if_true, decide_True]
        congr 1
        push_cast
        ring
      · have hd : decide (nb.nio = n) = false := by simp [Ne.symm hn]
        simp [hn, hd]

/-- One attach/detach pair: after a successful `c3725_nm_add_nio_binding`, the
`c3725_nm_remove_nio_binding` of the same port succeeds and every count is back. -/
theorem attach_detach_netio {MAX : Nat} {ok : Bool} {w : World} {nm_bay port_id : Nat}
    {name : String} (hs : (c3725_nm_add_nio_binding MAX ok w nm_bay port_id name).1 = 0) :
    (c3725_nm_remove_nio_binding MAX
        (c3725_nm_add_nio_binding MAX ok w nm_bay port_id name).2 nm_bay port_id).1 = 0
    ∧ ∀ n, (c3725_nm_remove_nio_binding MAX
        (c3725_nm_add_nio_binding MAX ok w nm_bay port_id name).2 nm_bay port_id).2.netio n
      = w.netio n := by
  obtain ⟨h, hf, hok, netio1, ha⟩ := add_nio_binding_success hs
  subst hok
  rw [add_nio_binding_ok w port_id name h hf ha]
  have hfind : c3725_nm_find_nio_binding MAX
      (set_bay { w with netio := netio1,
                        trace := w.trace ++ [Event.netio_acquire name] } nm_bay
        { w.router.nm_bay nm_bay with
          nio_list := ⟨name, port_id⟩ :: (w.router.nm_bay nm_bay).nio_list }).router
      nm_bay port_id = some ⟨name, port_id⟩ := by
    rw [find_nio_binding_in_range _ port_id h]
    simp [set_bay]
  rw [remove_nio_binding_some _ port_id h hfind]
  refine ⟨rfl, fun n => ?_⟩
  obtain ⟨c, hc, hn1⟩ := netio_acquire_some ha
  show netio_release netio1 name n = w.netio n
  rw [netio_release_apply, hn1 n]
  by_cases hn : n = name
  · subst hn
    simp [hc]
  · cases hw : w.netio n <;> simp [hn]

theorem attach_detach_pairs_netio (MAX : Nat) (ok : Bool) (nm_bay : Nat) :
    ∀ (pairs : List (Nat × String)) (w w' : World),
      attach_detach_pairs MAX ok nm_bay w pairs = some w' → ∀ n, w'.netio n = w.netio n
  | [], w, w', h, n => by
    have e : w = w' := by simpa [attach_detach_pairs] using h
    rw [e]
  | (port_id, name) :: rest, w, w', h, n => by
    unfold attach_detach_pairs at h
    split_ifs at h with hc
    rw [attach_detach_pairs_netio MAX ok nm_bay rest _ w' h n]
    exact (attach_detach_netio hc.1).2 n

/-- Releasing right after acquiring gives every count back. -/
theorem acquire_release_netio {netio netio1 : String → Option Int} {name : String}
    (ha : netio_acquire netio name = some netio1) (n : String) :
    netio_release netio1 name n = netio n := by
  obtain ⟨c, hc, hn1⟩ := netio_acquire_some ha
  rw [netio_release_apply, hn1 n]
  by_cases hn : n = name
  · subst hn
    simp [hc]
  · cases hw : netio n <;> simp [hn]

/-- C19 (reference discipline), with the registry as a map from NIO name to reference count
(`netio_acquire` adds 1, `netio_release` subtracts 1).  Every successful
`c3725_nm_add_nio_binding` raises the count of the named NIO by exactly 1 and changes no
other count; every successful `c3725_nm_remove_nio_binding` lowers the count of the NIO of
the removed binding by exactly 1 and changes no other count; `c3725_nm_remove_all_nio_bindings`
lowers each count by the number of bindings of the bay that refer to that NIO, 1 for every
binding removed; every failed attach or detach leaves all counts unchanged; hence after any
sequence of successful attach/detach pairs on a bay every count equals its initial value. -/
theorem c3725_nm_nio_reference_discipline (C3725_MAX_NM_BAYS : Nat) (nb_malloc_ok : Bool)
    (w : World) (nm_bay port_id : Nat) (nio_name : String) :
    ((c3725_nm_add_nio_binding C3725_MAX_NM_BAYS nb_malloc_ok w nm_bay port_id nio_name).1 = 0 →
      ∃ c, w.netio nio_name = some c
        ∧ (c3725_nm_add_nio_binding C3725_MAX_NM_BAYS nb_malloc_ok w nm_bay port_id
            nio_name).2.netio nio_name = some (c + 1)
        ∧ ∀ n, n ≠ nio_name →
            (c3725_nm_add_nio_binding C3725_MAX_NM_BAYS nb_malloc_ok w nm_bay port_id
              nio_name).2.netio n = w.netio n)
    ∧ ((c3725_nm_add_nio_binding C3725_MAX_NM_BAYS nb_malloc_ok w nm_bay port_id nio_name).1 ≠ 0 →
      ∀ n, (c3725_nm_add_nio_binding C3725_MAX_NM_BAYS nb_malloc_ok w nm_bay port_id
        nio_name).2.netio n = w.netio n)
    ∧ ((c3725_nm_remove_nio_binding C3725_MAX_NM_BAYS w nm_bay port_id).1 = 0 →
      ∃ nb, c3725_nm_find_nio_binding C3725_MAX_NM_BAYS w.router nm_bay port_id = some nb
        ∧ (∀ c, w.netio nb.nio = some c →
            (c3725_nm_remove_nio_binding C3725_MAX_NM_BAYS w nm_bay port_id).2.netio nb.nio
              = some (c - 1))
        ∧ ∀ n, n ≠ nb.nio →
            (c3725_nm_remove_nio_binding C3725_MAX_NM_BAYS w nm_bay port_id).2.netio n
              = w.netio n)
    ∧ ((c3725_nm_remove_nio_binding C3725_MAX_NM_BAYS w nm_bay port_id).1 ≠ 0 →
      (c3725_nm_remove_nio_binding C3725_MAX_NM_BAYS w nm_bay port_id).2 = w)
    ∧ (nm_bay < C3725_MAX_NM_BAYS → ∀ n,
        (c3725_nm_remove_all_nio_bindings C3725_MAX_NM_BAYS w nm_bay).2.netio n
          = (w.netio n).map (fun c : Int => c
              - (((w.router.nm_bay nm_bay).nio_list.countP
                  (fun nb => decide (nb.nio = n)) : Nat) : Int)))
    ∧ (C3725_MAX_NM_BAYS ≤ nm_bay →
        c3725_nm_remove_all_nio_bindings C3725_MAX_NM_BAYS w nm_bay = (-1, w))
    ∧ (∀ pairs w', attach_detach_pairs C3725_MAX_NM_BAYS nb_malloc_ok nm_bay w pairs = some w' →
        ∀ n, w'.netio n = w.netio n) := by
  refine ⟨?_, ?_, ?_, ?_, ?_, ?_, ?_⟩
  · intro hs
    obtain ⟨h, hf, hok, netio1, ha⟩ := add_nio_binding_success hs
    subst hok
    rw [add_nio_binding_ok w port_id nio_name h hf ha]
    obtain ⟨c, hc, hn1⟩ := netio_acquire_some ha
    refine ⟨c, hc, ?_, ?_⟩
    · show netio1 nio_name = _
      rw [hn1]; simp
    · intro n hn
      show netio1 n = _
      rw [hn1]; simp [hn]
  · intro hs n
    by_cases h : nm_bay < C3725_MAX_NM_BAYS
    · cases hf : (c3725_nm_find_nio_binding C3725_MAX_NM_BAYS w.router nm_bay
          port_id).isSome with
      | true => rw [add_nio_binding_dup nb_malloc_ok w port_id nio_name h hf]
      | false =>
        cases ha : netio_acquire w.netio nio_name with
        | none => rw [add_nio_binding_not_found nb_malloc_ok w port_id nio_name h hf ha]
        | some netio1 =>
          cases nb_malloc_ok with
          | false =>
            rw [add_nio_binding_no_memory w port_id nio_name h hf ha]
            exact acquire_release_netio ha n
          | true =>
            rw [add_nio_binding_ok w port_id nio_name h hf ha] at hs
            exact absurd rfl hs
    · rw [add_nio_binding_out_of_range nb_malloc_ok w port_id nio_name (by omega)]
  · intro hs
    by_cases h : nm_bay < C3725_MAX_NM_BAYS
    · cases hf : c3725_nm_find_nio_binding C3725_MAX_NM_BAYS w.router nm_bay port_id with
      | none =>
        rw [remove_nio_binding_none w port_id h hf] at hs
        exact absurd hs (fail_ne_zero w)
      | some nb =>
        rw [remove_nio_binding_some w port_id h hf]
        refine ⟨nb, rfl, ?_, ?_⟩
        · intro c hc
          show netio_release w.netio nb.nio nb.nio = _
          rw [netio_release_apply, hc]; simp
        · intro n hn
          show netio_release w.netio nb.nio n = _
          rw [netio_release_apply]
          cases hw : w.netio n <;> simp [hn]
    · rw [remove_nio_binding_out_of_range w port_id (by omega)] at hs
      exact absurd hs (fail_ne_zero w)
  · intro hs
    by_cases h : nm_bay < C3725_MAX_NM_BAYS
    · cases hf : c3725_nm_find_nio_binding C3725_MAX_NM_BAYS w.router nm_bay port_id with
      | none => rw [remove_nio_binding_none w port_id h hf]
      | some nb =>
        rw [remove_nio_binding_some w port_id h hf] at hs
        exact absurd rfl hs
    · rw [remove_nio_binding_out_of_range w port_id (by omega)]
  · intro h n
    rw [remove_all_nio_bindings_in_range w h]
    exact remove_all_nio_loop_netio _ nm_bay n _ _ _
  · intro h
    unfold c3725_nm_remove_all_nio_bindings
    rw [get_info_out_of_range w.router h]
  · intro pairs w' hp n
    exact attach_detach_pairs_netio C3725_MAX_NM_BAYS nb_malloc_ok nm_bay pairs w w' hp n

/-- C19, witness: on bay 1 (port 0 bound to "tapA", count 2), binding port 1 to "tapA"
raises the count to 3, a second binding for port 0 fails and leaves the count at 2, and three
attach/detach pairs succeed and leave the count at 2. -/
theorem c3725_nm_nio_reference_discipline_witness :
    ((c3725_nm_add_nio_binding 3 true bound_world 1 1 "tapA").1 = 0
      ∧ (c3725_nm_add_nio_binding 3 true bound_world 1 1 "tapA").2.netio "tapA" = some 3)
    ∧ ((c3725_nm_add_nio_binding 3 true bound_world 1 0 "tapA").1 ≠ 0
      ∧ (c3725_nm_add_nio_binding 3 true bound_world 1 0 "tapA").2.netio "tapA"
        = bound_world.netio "tapA")
    ∧ (attach_detach_pairs 3 true 1 bound_world [(1, "tapA"), (1, "tapA"), (2, "tapA")]).map
        (fun w => w.netio "tapA") = some (some 2) :=
  ⟨by decide,
    ⟨by decide,
      (c3725_nm_nio_reference_discipline 3 true bound_world 1 0 "tapA").2.1 (by decide) "tapA"⟩,
    by decide⟩

/-! ## Binding lists after each operation -/

theorem set_bay_nio_list (w : World) (k i : Nat) (b : c3725_nm_bay) :
    ((set_bay w k b).router.nm_bay i).nio_list
      = if i = k then b.nio_list else (w.router.nm_bay i).nio_list := by
  unfold set_bay
  by_cases h : i = k <;> simp [h]

theorem get_info_some {MAX : Nat} {router : c3725_t} {nm_bay : Nat} {bay : c3725_nm_bay}
    (h : c3725_nm_get_info MAX router nm_bay = some bay) :
    nm_bay < MAX ∧ bay = router.nm_bay nm_bay := by
  unfold c3725_nm_get_info at h
  split_ifs at h with hc
  exact ⟨by omega, by simpa using h.symm⟩

theorem add_binding_nio_list (MAX : Nat) (drivers : List c3725_nm_driver) (w : World)
    (dev_type : String) (nm_bay i : Nat) :
    ((c3725_nm_add_binding MAX drivers w dev_type nm_bay).2.router.nm_bay i).nio_list
      = (w.router.nm_bay i).nio_list := by
  by_cases h : nm_bay < MAX
  · by_cases hd : (w.router.nm_bay nm_bay).dev_type = none
    · cases hg : c3725_nm_get_driver drivers dev_type with
      | none => rw [add_binding_unknown drivers w dev_type h hd hg]
      | some d =>
        rw [add_binding_ok drivers w dev_type h hd hg, set_bay_nio_list]
        split_ifs with hi
        · rw [hi]
        · rfl
    · rw [add_binding_bound drivers w dev_type h hd]
  · unfold c3725_nm_add_binding
    rw [get_info_out_of_range w.router (by omega)]

theorem remove_all_nio_list (MAX : Nat) (w : World) (nm_bay i : Nat) :
    ((c3725_nm_remove_all_nio_bindings MAX w nm_bay).2.router.nm_bay i).nio_list
      = if i = nm_bay ∧ nm_bay < MAX then [] else (w.router.nm_bay i).nio_list := by
  by_cases h : nm_bay < MAX
  · rw [remove_all_nio_bindings_in_range w h, set_bay_nio_list]
    by_cases hi : i = nm_bay <;> simp [hi, h]
  · unfold c3725_nm_remove_all_nio_bindings
    rw [get_info_out_of_range w.router (by omega)]
    simp [h]

theorem remove_binding_nio_list (MAX : Nat) (w : World) (nm_bay i : Nat) :
    ((c3725_nm_remove_binding MAX w nm_bay).2.router.nm_bay i).nio_list
        = (w.router.nm_bay i).nio_list
    ∨ ((c3725_nm_remove_binding MAX w nm_bay).2.router.nm_bay i).nio_list = [] := by
  unfold c3725_nm_remove_binding
  split
  · exact Or.inl rfl
  · rename_i bay hb
    obtain ⟨h, _⟩ := get_info_some hb
    split_ifs
    · exact Or.inl rfl
    · exact Or.inl rfl
    · rw [set_bay_nio_list]
      by_cases hi : i = nm_bay
      · right
        rw [if_pos hi]
        have := remove_all_nio_list MAX w nm_bay nm_bay
        simpa [h] using this
      · left
        rw [if_neg hi, remove_all_nio_list, if_neg (by simp [hi])]

theorem enable_all_nio_router (MAX : Nat) (w : World) (nm_bay : Nat) :
    (c3725_nm_enable_all_nio MAX w nm_bay).2.router = w.router := by
  unfold c3725_nm_enable_all_nio
  split
  · rfl
  · split <;> rfl

theorem disable_all_nio_router (MAX : Nat) (w : World) (nm_bay : Nat) :
    (c3725_nm_disable_all_nio MAX w nm_bay).2.router = w.router := by
  unfold c3725_nm_disable_all_nio
  split
  · rfl
  · split <;> rfl

theorem nm_init_nio_list (MAX : Nat) (malloc_ok : Nat → Bool) (w : World) (nm_bay i : Nat) :
    ((c3725_nm_init MAX malloc_ok w nm_bay).2.router.nm_bay i).nio_list
      = (w.router.nm_bay i).nio_list := by
  unfold c3725_nm_init
  split
  · rfl
  · rename_i bay hb
    obtain ⟨h, hbay⟩ := get_info_some hb
    subst hbay
    split
    · dsimp only
      split_ifs
      · rw [set_bay_nio_list]
        split_ifs with hi
        · rw [hi]
        · rfl
      · rw [set_bay_nio_list]
        split_ifs with hi
        · rw [hi]
        · rfl
      · rw [enable_all_nio_router, set_bay_nio_list]
        split_ifs with hi
        · rw [hi]
        · rfl
    · rfl

theorem shutdown_nio_list (MAX : Nat) (w : World) (nm_bay i : Nat) :
    ((c3725_nm_shutdown MAX w nm_bay).2.router.nm_bay i).nio_list
      = (w.router.nm_bay i).nio_list := by
  unfold c3725_nm_shutdown
  split
  · rfl
  · rename_i bay hb
    obtain ⟨h, hbay⟩ := get_info_some hb
    subst hbay
    split
    · dsimp only
      split
      · split_ifs
        · show ((c3725_nm_disable_all_nio MAX w nm_bay).2.router.nm_bay i).nio_list = _
          rw [disable_all_nio_router]
        · rw [set_bay_nio_list]
          split_ifs with hi
          · rw [hi]
          · show ((c3725_nm_disable_all_nio MAX w nm_bay).2.router.nm_bay i).nio_list = _
            rw [disable_all_nio_router]
      · rw [set_bay_nio_list]
        split_ifs with hi
        · rw [hi]
        · rw [disable_all_nio_router]
    · rfl

theorem add_nio_binding_nio_list (MAX : Nat) (ok : Bool) (w : World)
    (nm_bay port_id : Nat) (name : String) (i : Nat) :
    ((c3725_nm_add_nio_binding MAX ok w nm_bay port_id name).2.router.nm_bay i).nio_list
        = (w.router.nm_bay i).nio_list
    ∨ ((∀ b ∈ (w.router.nm_bay i).nio_list, b.port_id ≠ port_id)
      ∧ ((c3725_nm_add_nio_binding MAX ok w nm_bay port_id name).2.router.nm_bay i).nio_list
        = ⟨name, port_id⟩ :: (w.router.nm_bay i).nio_list) := by
  by_cases h : nm_bay < MAX
  · cases hf : (c3725_nm_find_nio_binding MAX w.router nm_bay port_id).isSome with
    | true => rw [add_nio_binding_dup ok w port_id name h hf]; exact Or.inl rfl
    | false =>
      cases ha : netio_acquire w.netio name with
      | none => rw [add_nio_binding_not_found ok w port_id name h hf ha]; exact Or.inl rfl
      | some netio1 =>
        cases ok with
        | false => rw [add_nio_binding_no_memory w port_id name h hf ha]; exact Or.inl rfl
        | true =>
          rw [add_nio_binding_ok w port_id name h hf ha, set_bay_nio_list]
          by_cases hi : i = nm_bay
          · subst hi
            right
            rw [if_pos rfl]
            refine ⟨?_, rfl⟩
            rw [find_nio_binding_in_range w.router port_id h] at hf
            have hn : (w.router.nm_bay i).nio_list.find?
                (fun nb => decide (nb.port_id = port_id)) = none := by
              cases hq : (w.router.nm_bay i).nio_list.find?
                  (fun nb => decide (nb.port_id = port_id)) with
              | none => rfl
              | some x => rw [hq] at hf; exact absurd hf (by simp)
            intro b hb
            simpa using List.find?_eq_none.mp hn b hb
          · left
            rw [if_neg hi]
  · rw [add_nio_binding_out_of_range ok w port_id name (by omega)]
    exact Or.inl rfl

theorem remove_nio_binding_nio_list (MAX : Nat) (w : World) (nm_bay port_id i : Nat) :
    ((c3725_nm_remove_nio_binding MAX w nm_bay port_id).2.router.nm_bay i).nio_list.Sublist
      (w.router.nm_bay i).nio_list := by
  by_cases h : nm_bay < MAX
  · cases hf : c3725_nm_find_nio_binding MAX w.router nm_bay port_id with
    | none => rw [remove_nio_binding_none w port_id h hf]
    | some nb =>
      rw [remove_nio_binding_some w port_id h hf, set_bay_nio_list]
      by_cases hi : i = nm_bay
      · subst hi
        rw [if_pos rfl]
        exact List.eraseP_sublist _
      · rw [if_neg hi]
  · rw [remove_nio_binding_out_of_range w port_id (by omega)]

/-! ## Claim on the uniqueness of port ids -/

/-- C20 (binding uniqueness invariant). In every state reachable from a freshly created
instance by any sequence of calls of `c3725_nm_add_binding`, `c3725_nm_remove_binding`,
`c3725_nm_init`, `c3725_nm_shutdown`, `c3725_nm_add_nio_binding`,
`c3725_nm_remove_nio_binding` and `c3725_nm_remove_all_nio_bindings` (any arguments, any
outcome), no bay holds two NIO bindings with the same `port_id`. -/
theorem c3725_nm_port_ids_unique (C3725_MAX_NM_BAYS : Nat) (nm_drivers : List c3725_nm_driver)
    (w : World) (hr : Reachable C3725_MAX_NM_BAYS nm_drivers w) (i : Nat) :
    ((w.router.nm_bay i).nio_list.map (fun b => b.port_id)).Nodup := by
  induction hr generalizing i with
  | fresh netio => exact List.nodup_nil
  | bind w dev_type nm_bay _ ih => rw [add_binding_nio_list]; exact ih i
  | unbind w nm_bay _ ih =>
    rcases remove_binding_nio_list C3725_MAX_NM_BAYS w nm_bay i with e | e
    · rw [e]; exact ih i
    · rw [e]; exact List.nodup_nil
  | activate w malloc_ok nm_bay _ ih => rw [nm_init_nio_list]; exact ih i
  | deactivate w nm_bay _ ih => rw [shutdown_nio_list]; exact ih i
  | attach_backend w ok nm_bay port_id name _ ih =>
    rcases add_nio_binding_nio_list C3725_MAX_NM_BAYS ok w nm_bay port_id name i with e | ⟨hne, e⟩
    · rw [e]; exact ih i
    · rw [e, List.map_cons, List.nodup_cons]
      refine ⟨?_, ih i⟩
      intro hm
      obtain ⟨b, hb, hp⟩ := List.mem_map.mp hm
      exact hne b hb hp
  | detach_backend w nm_bay port_id _ ih =>
    exact List.Nodup.sublist
      ((remove_nio_binding_nio_list C3725_MAX_NM_BAYS w nm_bay port_id i).map _) (ih i)
  | detach_all_backends w nm_bay _ ih =>
    rw [remove_all_nio_list]
    split_ifs
    · exact List.nodup_nil
    · exact ih i

/-- C20, witness: the state reached from a fresh router by binding "NM-1FE-TX" to bay 1,
attaching "tapA" to its port 0, attaching it again (refused) and attaching it to port 1. -/
theorem c3725_nm_port_ids_unique_witness :
    (((c3725_nm_add_nio_binding 3 true
        (c3725_nm_add_nio_binding 3 true
          (c3725_nm_add_nio_binding 3 true
            (c3725_nm_add_binding 3 test_drivers fresh_world "NM-1FE-TX" 1).2
            1 0 "tapA").2 1 0 "tapA").2 1 1 "tapA").2.router.nm_bay 1).nio_list.map
      (fun b => b.port_id)) = [1, 0]
    ∧ (((c3725_nm_add_nio_binding 3 true
        (c3725_nm_add_nio_binding 3 true
          (c3725_nm_add_nio_binding 3 true
            (c3725_nm_add_binding 3 test_drivers fresh_world "NM-1FE-TX" 1).2
            1 0 "tapA").2 1 0 "tapA").2 1 1 "tapA").2.router.nm_bay 1).nio_list.map
      (fun b => b.port_id)).Nodup :=
  ⟨by decide,
    c3725_nm_port_ids_unique 3 test_drivers _
      (Reachable.attach_backend _ true 1 1 "tapA"
        (Reachable.attach_backend _ true 1 0 "tapA"
          (Reachable.attach_backend _ true 1 0 "tapA"
            (Reachable.bind _ "NM-1FE-TX" 1 (Reachable.fresh fresh_world.netio))))) 1⟩

/-! ## Detaching all backends and detaching them one by one -/

theorem world_ext {w1 w2 : World} (hr : ∀ i, w1.router.nm_bay i = w2.router.nm_bay i)
    (hn : w1.netio = w2.netio) (ht : w1.trace = w2.trace) : w1 = w2 := by
  cases w1 with
  | mk r1 n1 t1 =>
    cases w2 with
    | mk r2 n2 t2 =>
      cases r1 with
      | mk f1 =>
        cases r2 with
        | mk f2 =>
          have hf : f1 = f2 := funext hr
          simp only at hn ht
          rw [hf, hn, ht]

/-- With an empty binding list, `c3725_nm_remove_all_nio_bindings` changes nothing. -/
theorem remove_all_nio_bindings_nil {MAX : Nat} (w : World) {nm_bay : Nat} (h : nm_bay < MAX)
    (hl : (w.router.nm_bay nm_bay).nio_list = []) :
    (c3725_nm_remove_all_nio_bindings MAX w nm_bay).2 = w := by
  rw [remove_all_nio_bindings_in_range w h, hl]
  apply world_ext
  · intro i
    by_cases hi : i = nm_bay
    · subst hi
      rw [set_bay_same]
      cases hb : w.router.nm_bay i with
      | mk a b c d e =>
        rw [hb] at hl
        simp only at hl
        rw [hl]
    · simp [set_bay, hi]
  · rfl
  · rfl

/-- One step: removing the binding at the head of the list, by its port id, and then all the
others, is removing them all. -/
theorem remove_all_nio_bindings_cons {MAX : Nat} (w : World) {nm_bay : Nat}
    {nb : c3725_nio_binding} {rest : List c3725_nio_binding} (h : nm_bay < MAX)
    (hl : (w.router.nm_bay nm_bay).nio_list = nb :: rest) :
    ((c3725_nm_remove_nio_binding MAX w nm_bay nb.port_id).2.router.nm_bay nm_bay).nio_list
      = rest
    ∧ (c3725_nm_remove_all_nio_bindings MAX
        (c3725_nm_remove_nio_binding MAX w nm_bay nb.port_id).2 nm_bay).2
      = (c3725_nm_remove_all_nio_bindings MAX w nm_bay).2 := by
  have hfind : c3725_nm_find_nio_binding MAX w.router nm_bay nb.port_id = some nb := by
    rw [find_nio_binding_in_range w.router nb.port_id h, hl]
    simp
  rw [remove_nio_binding_some w nb.port_id h hfind]
  have he : (w.router.nm_bay nm_bay).nio_list.eraseP
      (fun b => decide (b.port_id = nb.port_id)) = rest := by
    rw [hl]; simp
  rw [he]
  constructor
  · rw [set_bay_same]
  · rw [remove_all_nio_bindings_in_range _ h, remove_all_nio_bindings_in_range w h]
    apply world_ext
    · intro i
      by_cases hi : i = nm_bay
      · subst hi
        simp [set_bay]
      · simp [set_bay, hi]
    · simp [set_bay, hl, remove_all_nio_loop]
    · simp [set_bay, hl, remove_all_nio_loop]

theorem detach_each_backend_eq {MAX : Nat} {nm_bay : Nat} (h : nm_bay < MAX) :
    ∀ (l : List c3725_nio_binding) (w : World), (w.router.nm_bay nm_bay).nio_list = l →
      detach_each_backend MAX nm_bay w (l.map (fun nb => nb.port_id))
        = (c3725_nm_remove_all_nio_bindings MAX w nm_bay).2
  | [], w, hl => (remove_all_nio_bindings_nil w h hl).symm
  | nb :: rest, w, hl => by
    obtain ⟨h1, h2⟩ := remove_all_nio_bindings_cons w h hl
    show detach_each_backend MAX nm_bay
      (c3725_nm_remove_nio_binding MAX w nm_bay nb.port_id).2
      (rest.map (fun nb => nb.port_id)) = _
    rw [detach_each_backend_eq h rest _ h1, h2]

/-- C21 (detach_all_backends refines repeated detach_backend). For every bay in range whose
bindings have pairwise distinct port ids, `c3725_nm_remove_all_nio_bindings` returns 0 and
ends in the same state as calling `c3725_nm_remove_nio_binding` once for each bound port in
list order: the same router (the binding list of the bay empty), the same reference counts
in the registry and the same sequence of `nm_unset_nio` and `netio_release` calls. -/
theorem c3725_nm_remove_all_refines_repeated_remove (C3725_MAX_NM_BAYS : Nat) (w : World)
    (nm_bay : Nat) (h : nm_bay < C3725_MAX_NM_BAYS)
    (_hd : ((w.router.nm_bay nm_bay).nio_list.map (fun nb => nb.port_id)).Nodup) :
    (c3725_nm_remove_all_nio_bindings C3725_MAX_NM_BAYS w nm_bay).1 = 0
    ∧ (c3725_nm_remove_all_nio_bindings C3725_MAX_NM_BAYS w nm_bay).2
      = spec_detach_all_backends C3725_MAX_NM_BAYS w nm_bay
    ∧ ((spec_detach_all_backends C3725_MAX_NM_BAYS w nm_bay).router.nm_bay nm_bay).nio_list = []
    ∧ (spec_detach_all_backends C3725_MAX_NM_BAYS w nm_bay).netio
      = (c3725_nm_remove_all_nio_bindings C3725_MAX_NM_BAYS w nm_bay).2.netio
    ∧ (spec_detach_all_backends C3725_MAX_NM_BAYS w nm_bay).trace
      = (c3725_nm_remove_all_nio_bindings C3725_MAX_NM_BAYS w nm_bay).2.trace := by
  have e : spec_detach_all_backends C3725_MAX_NM_BAYS w nm_bay
      = (c3725_nm_remove_all_nio_bindings C3725_MAX_NM_BAYS w nm_bay).2 :=
    detach_each_backend_eq h _ w rfl
  refine ⟨?_, e.symm, ?_, by rw [e], by rw [e]⟩
  · rw [remove_all_nio_bindings_in_range w h]
  · rw [e, remove_all_nio_list]
    simp [h]

/-- C21, witness: bay 1 with port 1 -> tapA and port 0 -> tapB: both ways make the calls
`nm_unset_nio(1)`, release tapA, `nm_unset_nio(0)`, release tapB, and leave the counts of
tapA and tapB at 1 and 0. -/
theorem c3725_nm_remove_all_refines_repeated_remove_witness :
    ((two_nio_world.router.nm_bay 1).nio_list.map (fun nb => nb.port_id)).Nodup
    ∧ (spec_detach_all_backends 3 two_nio_world 1).trace
      = [Event.nm_unset_nio "NM-1FE-TX" 1 1, Event.netio_release "tapA",
         Event.nm_unset_nio "NM-1FE-TX" 1 0, Event.netio_release "tapB"]
    ∧ (c3725_nm_remove_all_nio_bindings 3 two_nio_world 1).2.trace
      = (spec_detach_all_backends 3 two_nio_world 1).trace
    ∧ (c3725_nm_remove_all_nio_bindings 3 two_nio_world 1).2.netio "tapA" = some 1
    ∧ (spec_detach_all_backends 3 two_nio_world 1).netio "tapB" = some 0 :=
  ⟨by decide, by decide,
    (c3725_nm_remove_all_refines_repeated_remove 3 two_nio_world 1 (by decide)
      (by decide)).2.2.2.2.symm,
    by decide, by decide⟩

/-! ## Empty NVRAM -/

/-- With enough fuel the loop over `4 * n` bytes ends, and it ends with `true` exactly when
the `n` words read are all zero. -/
theorem check_empty_loop_spec (read : Nat → Nat) :
    ∀ (n fuel addr : Nat), n ≤ fuel → addr < 18446744073709551616 →
      4 * n < 18446744073709551616 →
      ∃ b, check_empty_loop read fuel addr (4 * n) = some b
        ∧ (b = true ↔ ∀ k, k < n → read ((addr + 4 * k) % 18446744073709551616) = 0)
  | 0, fuel, addr, _, _, _ => by
    refine ⟨true, ?_, by simp⟩
    cases fuel <;> simp [check_empty_loop]
  | n + 1, 0, addr, hf, _, _ => by omega
  | n + 1, fuel + 1, addr, hf, ha, hn => by
    have hlen : (4 * (n + 1) + 18446744073709551616 - 4) % 18446744073709551616 = 4 * n := by
      omega
    by_cases hr : read addr = 0
    · obtain ⟨b, hb, hiff⟩ := check_empty_loop_spec read n fuel
        ((addr + 4) % 18446744073709551616) (by omega) (Nat.mod_lt _ (by decide)) (by omega)
      refine ⟨b, ?_, ?_⟩
      · rw [check_empty_loop, if_neg (by omega), if_neg (by simp [hr]), hlen]
        exact hb
      · rw [hiff]
        constructor
        · intro h k hk
          cases k with
          | zero => simpa [Nat.mod_eq_of_lt ha] using hr
          | succ k =>
            have := h k (by omega)
            rw [Nat.mod_add_mod] at this
            have e : addr + 4 * (k + 1) = addr + 4 + 4 * k := by ring
            rw [e]
            exact this
        · intro h k hk
          have := h (k + 1) (by omega)
          have e : addr + 4 * (k + 1) = addr + 4 + 4 * k := by ring
          rw [e] at this
          rw [Nat.mod_add_mod]
          exact this
    · refine ⟨false, ?_, ?_⟩
      · rw [check_empty_loop, if_neg (by omega), if_pos hr]
      · constructor
        · intro h; exact absurd h (by decide)
        · intro h
          have := h 0 (by omega)
          rw [Nat.mul_zero, Nat.add_zero, Nat.mod_eq_of_lt ha] at this
          exact absurd this hr

/-- C22 (empty-NVRAM detection). When the rom device exists, the size of the configuration
area is a multiple of 4 that fits a `size_t` and the area lies below 2^64, `c3725_nvram_check_empty_config`
terminates (any fuel of at least `C3725_NVRAM_SIZE / 4` iterations is enough) and returns 0.
If every 32-bit word of the area [rom base + C3725_NVRAM_OFFSET, + C3725_NVRAM_SIZE) reads
as zero, the configuration register becomes `conf_reg | 0x0040`, that is bit 0x0040 set and
every other bit unchanged (and the message is printed); if any word is not zero, the
register is unchanged (and nothing is printed). -/
theorem c3725_nvram_check_empty_config_spec (C3725_NVRAM_OFFSET C3725_NVRAM_SIZE : Nat)
    (physmem_copy_u32_from_vm : Nat → Nat) (fuel phys_addr conf_reg : Nat)
    (hs : C3725_NVRAM_SIZE % 4 = 0) (hlt : C3725_NVRAM_SIZE < 18446744073709551616)
    (hb : phys_addr + C3725_NVRAM_OFFSET + C3725_NVRAM_SIZE ≤ 18446744073709551616)
    (hf : C3725_NVRAM_SIZE / 4 ≤ fuel) :
    ∃ r, c3725_nvram_check_empty_config C3725_NVRAM_OFFSET C3725_NVRAM_SIZE
          physmem_copy_u32_from_vm fuel (some phys_addr) conf_reg = some r
      ∧ r.ret = 0
      ∧ ((∀ k, k < C3725_NVRAM_SIZE / 4 →
            physmem_copy_u32_from_vm (phys_addr + C3725_NVRAM_OFFSET + 4 * k) = 0) →
          r.conf_reg = conf_reg ||| 0x0040 ∧ r.printed = some (conf_reg ||| 0x0040))
      ∧ (¬ (∀ k, k < C3725_NVRAM_SIZE / 4 →
            physmem_copy_u32_from_vm (phys_addr + C3725_NVRAM_OFFSET + 4 * k) = 0) →
          r.conf_reg = conf_reg ∧ r.printed = none)
      ∧ ∀ i, (conf_reg ||| 0x0040).testBit i = (conf_reg.testBit i || decide (i = 6)) := by
  have hbits : ∀ i, (conf_reg ||| 0x0040).testBit i = (conf_reg.testBit i || decide (i = 6)) := by
    intro i
    rw [Nat.testBit_or]
    congr 1
    have h64 : (0x0040 : Nat) = 2 ^ 6 := by norm_num
    rw [h64, Nat.testBit_two_pow]
    by_cases hi : i = 6 <;> simp [hi, eq_comm]
  by_cases h0 : C3725_NVRAM_SIZE = 0
  · subst h0
    refine ⟨⟨0, conf_reg ||| 0x0040, some (conf_reg ||| 0x0040)⟩, ?_, rfl,
      fun _ => ⟨rfl, rfl⟩, fun hn => absurd (fun k hk => absurd hk (by omega)) hn, hbits⟩
    unfold c3725_nvram_check_empty_config
    have hl : check_empty_loop physmem_copy_u32_from_vm fuel
        ((phys_addr + C3725_NVRAM_OFFSET) % 18446744073709551616)
        (0 % 18446744073709551616) = some true := by
      cases fuel <;> simp [check_empty_loop]
    simp only [hl]
  · have hsz : C3725_NVRAM_SIZE % 18446744073709551616 = 4 * (C3725_NVRAM_SIZE / 4) := by
      rw [Nat.mod_eq_of_lt (by omega)]
      omega
    obtain ⟨b, hb1, hiff⟩ := check_empty_loop_spec physmem_copy_u32_from_vm
      (C3725_NVRAM_SIZE / 4) fuel ((phys_addr + C3725_NVRAM_OFFSET) % 18446744073709551616)
      hf (Nat.mod_lt _ (by decide)) (by omega)
    have hiff2 : b = true ↔ ∀ k, k < C3725_NVRAM_SIZE / 4 →
        physmem_copy_u32_from_vm (phys_addr + C3725_NVRAM_OFFSET + 4 * k) = 0 := by
      rw [hiff]
      constructor
      · intro h k hk
        have := h k hk
        rw [Nat.mod_add_mod, Nat.mod_eq_of_lt (by omega)] at this
        exact this
      · intro h k hk
        rw [Nat.mod_add_mod, Nat.mod_eq_of_lt (by omega)]
        exact h k hk
    unfold c3725_nvram_check_empty_config
    simp only [hsz, hb1]
    cases b with
    | true =>
      exact ⟨_, rfl, rfl, fun _ => ⟨rfl, rfl⟩, fun hn => absurd (hiff2.mp rfl) hn, hbits⟩
    | false =>
      refine ⟨_, rfl, rfl, fun ha => ?_, fun _ => ⟨rfl, rfl⟩, hbits⟩
      exact absurd (hiff2.mpr ha) (by decide)

/-- Witness for C22: a four-word area of zero words at rom base 0x60000000 turns the
configuration register 0x2102 into 0x2142. -/
theorem c3725_nvram_check_empty_config_spec_witness :
    (16 % 4 = 0 ∧ 0x60000000 + 0xE0000 + 16 ≤ 18446744073709551616 ∧ 16 / 4 ≤ 4)
      ∧ (c3725_nvram_check_empty_config 0xE0000 16 (fun _ => 0) 4 (some 0x60000000)
          0x2102).map (fun r => (r.ret, r.conf_reg)) = some (0, 0x2142) := by
  refine ⟨by decide, ?_⟩
  obtain ⟨r, hr, hret, hz, _, _⟩ := c3725_nvram_check_empty_config_spec 0xE0000 16
    (fun _ => 0) 4 0x60000000 0x2102 (by decide) (by decide) (by decide) (by decide)
  rw [hr, Option.map_some', hret, (hz (fun _ _ => rfl)).1]
  rfl

/-! ## Burning the MAC address -/

theorem set_region_length : ∀ (data eeprom : List Nat) (offset : Nat),
    (cisco_eeprom_set_region eeprom offset data).2.length = eeprom.length
  | [], eeprom, offset => by simp [cisco_eeprom_set_region]
  | b :: rest, eeprom, offset => by
    rw [cisco_eeprom_set_region]
    by_cases h : offset < eeprom.length
    · rw [if_pos h, set_region_length rest, List.length_set]
    · rw [if_neg h]

theorem set_region_getElem_opt : ∀ (data eeprom : List Nat) (offset j : Nat),
    (cisco_eeprom_set_region eeprom offset data).2[j]?
      = if offset ≤ j ∧ j < offset + data.length ∧ j < eeprom.length then data[j - offset]?
        else eeprom[j]?
  | [], eeprom, offset, j => by
    rw [cisco_eeprom_set_region, if_neg (by simp only [List.length_nil]; omega)]
  | b :: rest, eeprom, offset, j => by
    rw [cisco_eeprom_set_region]
    by_cases h : offset < eeprom.length
    · rw [if_pos h, set_region_getElem_opt rest, List.length_set, List.length_cons]
      by_cases hj : j = offset
      · subst hj
        rw [if_neg (by omega), if_pos (by omega), Nat.sub_self]
        simp [h]
      · by_cases hin : offset + 1 ≤ j ∧ j < offset + 1 + rest.length ∧ j < eeprom.length
        · rw [if_pos hin, if_pos (by omega)]
          have e : j - offset = (j - (offset + 1)) + 1 := by omega
          rw [e, List.getElem?_cons_succ]
        · rw [if_neg hin, if_neg (by omega), List.getElem?_set_ne (Ne.symm hj)]
    · rw [if_neg h, if_neg (by omega)]

/-- C23 (MAC burn dispatch). `c3725_burn_mac_addr` dispatches on the version byte `v` read at
offset 0 of the EEPROM. For version 0, with a 6-byte address and an EEPROM of at least
8 bytes, it returns 0, the EEPROM keeps its length, its bytes at offsets 2..7 are the 6
address bytes and every other byte is unchanged. For every version other than 0 and 4 it
returns -1 (after reporting the version) and the EEPROM is unmodified. -/
theorem c3725_burn_mac_addr_dispatch
    (cisco_eeprom_v4_find_field : List Nat → Nat → Option Nat) (eeprom_ver0 : Nat)
    (mb_eeprom : List Nat) (addr : n_eth_addr_t) (v : Nat)
    (hv : cisco_eeprom_get_byte mb_eeprom 0 = some v)
    (ha : addr.eth_addr_byte.length = 6) :
    (v = 0 → 8 ≤ mb_eeprom.length →
      (c3725_burn_mac_addr cisco_eeprom_v4_find_field eeprom_ver0 mb_eeprom addr).ret = 0
      ∧ (c3725_burn_mac_addr cisco_eeprom_v4_find_field eeprom_ver0 mb_eeprom addr
          ).mb_eeprom.length = mb_eeprom.length
      ∧ (∀ i, i < 6 →
          (c3725_burn_mac_addr cisco_eeprom_v4_find_field eeprom_ver0 mb_eeprom addr
            ).mb_eeprom[2 + i]? = addr.eth_addr_byte[i]?)
      ∧ (∀ j, j < 2 ∨ 8 ≤ j →
          (c3725_burn_mac_addr cisco_eeprom_v4_find_field eeprom_ver0 mb_eeprom addr
            ).mb_eeprom[j]? = mb_eeprom[j]?))
    ∧ (v ≠ 0 → v ≠ 4 →
      c3725_burn_mac_addr cisco_eeprom_v4_find_field eeprom_ver0 mb_eeprom addr
        = ⟨-1, mb_eeprom, some v⟩) := by
  have htake : addr.eth_addr_byte.take 6 = addr.eth_addr_byte := by
    rw [List.take_of_length_le (by omega)]
  constructor
  · intro h0 h8
    subst h0
    have hb : c3725_burn_mac_addr cisco_eeprom_v4_find_field eeprom_ver0 mb_eeprom addr
        = ⟨0, (cisco_eeprom_set_region mb_eeprom 2 addr.eth_addr_byte).2, none⟩ := by
      unfold c3725_burn_mac_addr
      simp only [hv, Option.getD_some, if_true, htake]
    rw [hb]
    refine ⟨rfl, set_region_length _ _ _, ?_, ?_⟩
    · intro i hi
      show (cisco_eeprom_set_region mb_eeprom 2 addr.eth_addr_byte).2[2 + i]? = _
      rw [set_region_getElem_opt, if_pos (by omega), Nat.add_sub_cancel_left]
    · intro j hj
      show (cisco_eeprom_set_region mb_eeprom 2 addr.eth_addr_byte).2[j]? = _
      rw [set_region_getElem_opt, if_neg (by omega)]
  · intro h0 h4
    unfold c3725_burn_mac_addr
    simp only [hv, Option.getD_some, if_neg h0, if_neg h4]

/-- Witness for C23: burning c4:01:13:19:00:00 into a 16-byte EEPROM of version 0, and into
one of version 1. -/
theorem c3725_burn_mac_addr_dispatch_witness :
    (c3725_burn_mac_addr (fun _ _ => none) 0xFF v0_eeprom test_mac
        = ⟨0, [0x00, 0x01, 0xC4, 0x01, 0x13, 0x19, 0x00, 0x00, 0x09, 0x61, 0x40, 0x02, 0x59,
            0xC0, 0x46, 0x03], none⟩)
    ∧ (c3725_burn_mac_addr (fun _ _ => none) 0xFF v1_eeprom test_mac
        = ⟨-1, v1_eeprom, some 1⟩)
    ∧ (c3725_burn_mac_addr (fun _ _ => none) 0xFF v0_eeprom test_mac).ret = 0
    ∧ (c3725_burn_mac_addr (fun _ _ => none) 0xFF v0_eeprom test_mac).mb_eeprom.length
        = v0_eeprom.length :=
  ⟨by decide,
    (c3725_burn_mac_addr_dispatch (fun _ _ => none) 0xFF v1_eeprom test_mac 1 (by decide)
      (by decide)).2 (by decide) (by decide),
    ((c3725_burn_mac_addr_dispatch (fun _ _ => none) 0xFF v0_eeprom test_mac 0 (by decide)
      (by decide)).1 rfl (by decide)).1,
    ((c3725_burn_mac_addr_dispatch (fun _ _ => none) 0xFF v0_eeprom test_mac 0 (by decide)
      (by decide)).1 rfl (by decide)).2.1⟩

/-! ## Bounds of the copy made by the decoder -/

/-- C24, failing inputs. (1) In the 2 MB rom left by `c3725_nvram_push_config` of the empty
text the stored config_length is 0: `c3725_nvram_extract_config` returns the non-negative
count 0xFFFFFFFF, having allocated 1 byte and written 2^32 bytes into it, read from a
source range that ends beyond the mapped region. (2) In a rom of 0xE0040 + 2^32 bytes
whose stored config_length is 0xFFFFFFFF it returns 0xFFFFFFFE, having allocated 0 bytes
and written 0xFFFFFFFF bytes. -/
theorem c3725_nvram_extract_config_overruns :
    ((c3725_nvram_push_config 0xE0000 0xE000 cksum0 (some zero_rom) []).2
          = some empty_pushed_rom
      ∧ ntohl_at empty_pushed_rom.mem (0xE0000 + 0x18) = 0
      ∧ (c3725_nvram_extract_config 0xE0000 (fun _ => true) (some empty_pushed_rom)).ret
          = 4294967295
      ∧ (∃ written,
          (c3725_nvram_extract_config 0xE0000 (fun _ => true) (some empty_pushed_rom)).buffer
            = .allocated 1 written ∧ written.length = 4294967296)
      ∧ empty_pushed_rom.size < 0xE0000 + 0x24 + 1 + 0x08 + 4294967295)
    ∧ (ntohl_at max_len_rom.mem (0xE0000 + 0x18) = 0xFFFFFFFF
      ∧ (c3725_nvram_extract_config 0xE0000 (fun _ => true) (some max_len_rom)).ret
          = 4294967294
      ∧ (∃ written,
          (c3725_nvram_extract_config 0xE0000 (fun _ => true) (some max_len_rom)).buffer
            = .allocated 0 written ∧ written.length = 4294967295)) := by
  have h10 : ntohl_at empty_pushed_rom.mem (0xE0000 + 0x10) = 0x24 := by decide
  have h18 : ntohl_at empty_pushed_rom.mem (0xE0000 + 0x18) = 0 := by decide
  have m10 : ntohl_at max_len_rom.mem (0xE0000 + 0x10) = 0x24 := by decide
  have m18 : ntohl_at max_len_rom.mem (0xE0000 + 0x18) = 0xFFFFFFFF := by decide
  have ep := extract_config_ok 0xE0000 (fun _ => true) empty_pushed_rom (by decide)
    (by decide) (by decide) rfl (by decide)
  have em := extract_config_ok 0xE0000 (fun _ => true) max_len_rom (by decide)
    (by decide) (by decide) rfl (by decide)
  rw [ep, em, h10, h18, m10, m18]
  refine ⟨⟨rfl, rfl, by decide, ⟨_, rfl, ?_⟩, by decide⟩, rfl, by decide, ⟨_, rfl, ?_⟩⟩
  · rw [List.length_append, memcpy_from_length]
    rfl
  · rw [List.length_append, memcpy_from_length]
    rfl

/-! ## The hypervisor command `set_iomem` -/

/-- C25, failing input. For the command `set_iomem R1 5` (argv = ["R1", "5"]) on a
hypervisor holding the instance "R1", `cmd_set_iomem` stores 0x8000 | atoi(optarg), not
0x8000 | atoi(argv[1]) = 0x8005: with `optarg` = "100" it stores 0x8064, with `optarg` =
"200" it stores 0x80C8, changing argv[1] to "7" changes nothing, and with a null `optarg`
the call of `atoi` has no defined result. -/
theorem cmd_set_iomem_reads_optarg :
    Int.lor 0x8000 (atoi (["R1", "5"].getD 1 "")) = 0x8005
    ∧ cmd_set_iomem one_vm (some "100") ["R1", "5"] = some ⟨0, some ⟨0x8064⟩, some "OK"⟩
    ∧ cmd_set_iomem one_vm (some "200") ["R1", "5"] = some ⟨0, some ⟨0x80C8⟩, some "OK"⟩
    ∧ cmd_set_iomem one_vm (some "100") ["R1", "7"] = cmd_set_iomem one_vm (some "100") ["R1", "5"]
    ∧ cmd_set_iomem one_vm none ["R1", "5"] = none := by
  decide
